import Mathlib

/-!
# Embedded weather station: HTTP telemetry server

A shallow embedding of `src/weather_station.c` (sampling loop, sample buffers,
threshold globals) and `src/lib/webserver.c` (`http_recv`, `http_sent`).

Conventions of the embedding.

* A C string is the list of its characters up to, and without, the terminating
  NUL; every character stands for one byte.
* `http_recv` never reads `p->len`.  What it is handed as a non-null `pbuf` is
  therefore modelled by the bytes in memory from `p->payload` on: the received
  chunk followed by whatever lies behind it.  The string functions stop at the
  first NUL among these bytes (`cstr`).
* The C `float` type is a parameter `F` of the definitions.  The two library
  conversions the server uses on it, `printf`'s `%.2f` and `scanf`'s `%f`, are
  parameters as well (`fmt` and `scan`).  `Float32`, `fmt_2f` and `scan_f`
  further down give the IEEE binary32 instance used for concrete requests.
* Calls into the TCP stack and the allocator are recorded, in program order,
  as a list of `Action`s.
-/

namespace WeatherStation

/-! ## Sample buffers (`weather_station.c`, lines 92-100 and 392-397) -/

/-- Buffer capacity: `#define MAX_BUFFER_SIZE 20`. -/
abbrev MAX_BUFFER_SIZE : Nat := 20

/-- One iteration's readings: the globals `temperature`, `humidity`, `pressure`
at the time the sampling loop stores them. -/
structure Sample (F : Type) where
  temperature : F
  humidity : F
  pressure : F

/-- The globals `temp_buffer`, `hum_buffer`, `press_buffer` (arrays of
`MAX_BUFFER_SIZE` floats) and `buffer_index`. -/
structure Telemetry (F : Type) where
  temp_buffer : Fin MAX_BUFFER_SIZE → F
  hum_buffer : Fin MAX_BUFFER_SIZE → F
  press_buffer : Fin MAX_BUFFER_SIZE → F
  buffer_index : Fin MAX_BUFFER_SIZE

/-- The index following `i`: `(i + 1) % MAX_BUFFER_SIZE` (line 397). -/
def next_index (i : Fin MAX_BUFFER_SIZE) : Fin MAX_BUFFER_SIZE :=
  ⟨(i.val + 1) % MAX_BUFFER_SIZE, Nat.mod_lt _ (by decide)⟩

/-- Lines 393-397 of `main`: store the three readings at `buffer_index`, then
advance `buffer_index` modulo `MAX_BUFFER_SIZE`. -/
def store_sample {F : Type} (s : Telemetry F) (x : Sample F) : Telemetry F :=
  { temp_buffer := Function.update s.temp_buffer s.buffer_index x.temperature
    hum_buffer := Function.update s.hum_buffer s.buffer_index x.humidity
    press_buffer := Function.update s.press_buffer s.buffer_index x.pressure
    buffer_index := next_index s.buffer_index }

/-- The state after the first `k` iterations of the sampling loop, the `j`-th
iteration (0-based) storing `w j`. -/
def run_writes {F : Type} (s0 : Telemetry F) (w : Nat → Sample F) : Nat → Telemetry F
  | 0 => s0
  | k + 1 => store_sample (run_writes s0 w k) (w k)

/-- Line 188 of `http_recv`: `idx = (buffer_index + i) % MAX_BUFFER_SIZE`. -/
def read_index {F : Type} (s : Telemetry F) (i : Nat) : Fin MAX_BUFFER_SIZE :=
  ⟨(s.buffer_index.val + i) % MAX_BUFFER_SIZE, Nat.mod_lt _ (by decide)⟩

/-- The three values `http_recv` reads in iteration `i` of its loop
(lines 188-197): slot `read_index s i` of each buffer. -/
def read_sample {F : Type} (s : Telemetry F) (i : Nat) : Sample F :=
  { temperature := s.temp_buffer (read_index s i)
    humidity := s.hum_buffer (read_index s i)
    pressure := s.press_buffer (read_index s i) }

/-! ## Threshold globals (`weather_station.c`, lines 67-86) -/

/-- The six user thresholds: the globals `temp_max_user`, `temp_min_user`,
`hum_max_user`, `hum_min_user`, `press_max_user`, `press_min_user`. -/
structure Registry (F : Type) where
  temp_max_user : F
  temp_min_user : F
  hum_max_user : F
  hum_min_user : F
  press_max_user : F
  press_min_user : F
deriving DecidableEq, Repr

/-! ## C string functions used by `http_recv` -/

/-- The function `isspace` in the C locale: space, `\t`, `\n`, `\v`, `\f`, `\r`. -/
def isspace (c : Char) : Bool :=
  c == ' ' || c == '\t' || c == '\n' || c == '\x0b' || c == '\x0c' || c == '\r'

/-- The function `isdigit`: the ten decimal digits. -/
def isdigit (c : Char) : Bool := c.isDigit

/-- The C string that starts at `p->payload`, given the bytes in memory from
that address on (the received chunk and the bytes behind it): these bytes up
to the first NUL (all of them when the list holds no NUL: the list then stands
for memory that has a NUL right behind its last byte).  `http_recv` never looks
at `p->len`, so this string, not the chunk, is what `strstr` and `sscanf`
read. -/
def cstr (payload : List Char) : List Char :=
  payload.takeWhile (fun c => c != '\x00')

/-- The call `strstr(hay, needle)`: the first suffix of `hay` that begins with
`needle`, or `none` (the null pointer) when `needle` does not occur in `hay`. -/
def strstr : List Char → List Char → Option (List Char)
  | [], needle => if needle.isPrefixOf [] then some [] else none
  | c :: hay, needle =>
    if needle.isPrefixOf (c :: hay) then some (c :: hay) else strstr hay needle

/-- The call `snprintf(dst, size, ...)` when the complete formatted text is
`text`: the string stored at `dst` (the first `size - 1` characters of `text`;
nothing when `size` is 0) and the return value (the length of the complete
text). -/
def snprintf (size : Nat) (text : List Char) : List Char × Nat :=
  (text.take (size - 1), text.length)

/-- Output of `printf`'s `%d` for a non-negative `int`. -/
def fmt_d (n : Nat) : List Char := Nat.toDigits 10 n

/-- The directives of a `scanf` format, for the fragment `http_recv` uses. -/
inductive Directive where
  /-- White space in the format: skips any amount of white space in the input. -/
  | space : Directive
  /-- An ordinary character: has to equal the next input character. -/
  | lit (c : Char) : Directive
  /-- The conversion `%f`. -/
  | conv_f : Directive
deriving DecidableEq, Repr

/-- Splits a `scanf` format string into directives (`%f`, white space,
ordinary characters). -/
def parse_format : List Char → List Directive
  | [] => []
  | '%' :: 'f' :: rest => Directive.conv_f :: parse_format rest
  | c :: rest => (if isspace c then Directive.space else Directive.lit c) :: parse_format rest

/-- The call `sscanf(input, format, ...)` for a parsed format: the values
converted, in order, up to the first directive that fails.  `scan` is the
library's `%f` conversion: on success it yields the value read and the input
left over. -/
def sscanf {F : Type} (scan : List Char → Option (F × List Char)) :
    List Directive → List Char → List F
  | [], _ => []
  | Directive.space :: ds, input => sscanf scan ds (input.dropWhile isspace)
  | Directive.lit c :: ds, input =>
    match input with
    | [] => []
    | x :: rest => if x = c then sscanf scan ds rest else []
  | Directive.conv_f :: ds, input =>
    match scan input with
    | none => []
    | some (v, rest) => v :: sscanf scan ds rest

/-- Stores the converted values through the pointer arguments, the `k`-th
value through the `k`-th pointer; arguments without a value are not written. -/
def store_args {R F : Type} : List (F → R → R) → List F → R → R
  | p :: ps, v :: vs, r => store_args ps vs (p v r)
  | _, _, r => r

/-- The pointer arguments of the `sscanf` call (lines 167-169), in order. -/
def threshold_args {F : Type} : List (F → Registry F → Registry F) :=
  [ fun v r => { r with temp_max_user := v },
    fun v r => { r with temp_min_user := v },
    fun v r => { r with hum_max_user := v },
    fun v r => { r with hum_min_user := v },
    fun v r => { r with press_max_user := v },
    fun v r => { r with press_min_user := v } ]

/-- The format string of line 166. -/
def limites_format : List Char :=
  String.toList
    "GET /limites?temp_max=%f&temp_min=%f&hum_max=%f&hum_min=%f&press_max=%f&press_min=%f"

/-- Lines 166-169: the `sscanf` call on the request, writing the thresholds. -/
def scan_thresholds {F : Type} (scan : List Char → Option (F × List Char))
    (reg : Registry F) (req : List Char) : Registry F :=
  store_args threshold_args (sscanf scan (parse_format limites_format) req) reg

/-! ## Connection state and transport calls (`webserver.c`, lines 133-151) -/

/-- The heap object `struct http_state`: `response` (a 4096-byte array, held
as the C string in it), `len` and `sent` (both `size_t`). -/
structure http_state where
  response : List Char
  len : Nat
  sent : Nat
deriving DecidableEq, Repr

/-- The calls `http_recv` and `http_sent` make to the allocator and to the TCP
stack.  `tcp_write src off n` is `tcp_write(tpcb, src + off, n, ...)`. -/
inductive Action where
  | malloc : Action
  | free : Action
  | tcp_arg : Action
  | tcp_sent : Action
  | tcp_write (src : List Char) (off : Nat) (n : Nat) : Action
  | tcp_output : Action
  | tcp_close : Action
  | pbuf_free : Action
deriving DecidableEq, Repr

/-- Return codes. -/
inductive err_t where
  | ERR_OK : err_t
  | ERR_MEM : err_t
deriving DecidableEq, Repr

/-- Width of `size_t` on the target (32-bit ARM). -/
abbrev SIZE_MAX_PLUS_ONE : Nat := 2 ^ 32

/-- The callback `http_sent` (lines 139-151): add `len` to `hs->sent`; when
`sent >= len` close the connection and free `hs` (result `none`), otherwise
write the rest of the response, from offset `sent`.  The length argument of
`tcp_write` is a `u16_t`. -/
def http_sent (hs : http_state) (len : Nat) : Option http_state × List Action :=
  let hs1 : http_state := { hs with sent := (hs.sent + len) % SIZE_MAX_PLUS_ONE }
  if hs1.sent ≥ hs1.len then
    (none, [Action.tcp_close, Action.free])
  else
    (some hs1, [Action.tcp_write hs1.response hs1.sent ((hs1.len - hs1.sent) % 65536)])

/-- One send-completion notification on a connection whose run so far is `c`
(the state object, if it still exists, and the calls made).  While the state
object exists `http_sent` runs on it.  Once it was freed the callback is
still registered with the dangling pointer (`http_sent` calls neither
`tcp_sent(tpcb, NULL)` nor `tcp_arg(tpcb, NULL)`), so a further notification
makes it read freed memory: the code defines no behaviour for that, and the
run has no result (`none`). -/
def notify (c : Option (Option http_state × List Action)) (len : Nat) :
    Option (Option http_state × List Action) :=
  match c with
  | some (some hs, acc) => some ((http_sent hs len).1, acc ++ (http_sent hs len).2)
  | _ => none

/-- The run of a connection over a sequence of send-completion notifications,
starting from state `hs`: the state object left and the calls made, or `none`
when a notification arrives after the state object was freed. -/
def run_acks (hs : http_state) (lens : List Nat) :
    Option (Option http_state × List Action) :=
  lens.foldl notify (some (some hs, []))

/-! ## Telemetry serialisation (`webserver.c`, lines 185-210) -/

/-- The complete output of the format `"%.2f%s"` with the arguments of lines
190-197: the value `x`, then `","` when `i < MAX_BUFFER_SIZE - 1` and `""`
otherwise. -/
def value_text {F : Type} (fmt : F → List Char) (x : F) (i : Nat) : List Char :=
  fmt x ++ (if i < MAX_BUFFER_SIZE - 1 then [','] else [])

/-- One `snprintf(s + strlen(s), sizeof(s) - strlen(s), "%.2f%s", x, sep)` of
lines 190-197, `s` being a 512-byte array: the new content of `s`. -/
def append_value {F : Type} (fmt : F → List Char) (s : List Char) (x : F) (i : Nat) :
    List Char :=
  s ++ (snprintf (512 - s.length) (value_text fmt x i)).1

/-- The local arrays `temp_str`, `hum_str`, `press_str`. -/
structure Scratch where
  temp_str : List Char
  hum_str : List Char
  press_str : List Char
deriving DecidableEq, Repr

/-- Body of the loop of lines 187-198 for loop counter `i`. -/
def serialize_step {F : Type} (fmt : F → List Char) (t : Telemetry F)
    (acc : Scratch) (i : Nat) : Scratch :=
  { temp_str := append_value fmt acc.temp_str (read_sample t i).temperature i
    hum_str := append_value fmt acc.hum_str (read_sample t i).humidity i
    press_str := append_value fmt acc.press_str (read_sample t i).pressure i }

/-- The loop of lines 187-198, started on three empty strings. -/
def serialize {F : Type} (fmt : F → List Char) (t : Telemetry F) : Scratch :=
  (List.range MAX_BUFFER_SIZE).foldl (serialize_step fmt t) ⟨[], [], []⟩

/-- Lines 200-203: the content of `json_payload` (2048 bytes). -/
def json_payload {F : Type} (fmt : F → List Char) (t : Telemetry F) : List Char :=
  (snprintf 2048
    ("\x7b\"temperaturas\":[".toList ++ (serialize fmt t).temp_str ++
     "],\"umidades\":[".toList ++ (serialize fmt t).hum_str ++
     "],\"pressoes\":[".toList ++ (serialize fmt t).press_str ++ "]\x7d".toList)).1

/-- The header text in front of the `Content-Length` value (lines 206-208). -/
def estado_header_pre : List Char :=
  String.toList
    ("HTTP/1.1 200 OK\r\n" ++
     "Content-Type: application/json\r\n" ++
     "Content-Length: ")

/-- The header text after the `Content-Length` value (lines 208-209). -/
def estado_header_post : List Char :=
  String.toList ("\r\n" ++ "Connection: close\r\n\r\n")

/-- Lines 205-210: the `snprintf` into `hs->response` (4096 bytes); the string
stored and the value assigned to `hs->len`. -/
def estado_response {F : Type} (fmt : F → List Char) (t : Telemetry F) : List Char × Nat :=
  snprintf 4096
    (estado_header_pre ++ fmt_d (json_payload fmt t).length ++ estado_header_post ++
      json_payload fmt t)

/-- The string `redir_hdr` (line 171). -/
def redir_hdr : List Char :=
  String.toList "HTTP/1.1 302 Found\r\nLocation: /\r\n\r\n"

/-- The string `header` of the default branch (lines 219-222). -/
def dashboard_header : List Char :=
  String.toList
    ("HTTP/1.1 200 OK\r\n" ++
     "Content-Type: text/html\r\n" ++
     "Connection: close\r\n\r\n")

/-- The C string `HTML_PART1` (`webserver.c`, lines 33-43): 790 bytes. -/
def HTML_PART1 : List Char :=
  String.toList (
    "<!DOCTYPE html><html lang=\"pt-BR\"><head><meta charset=\"UTF-8\">" ++
    "<meta name=\"viewport\" content=\"width=device-width, initial-scale=1.0\">" ++
    "<title>Weather Station</title><style>" ++
    "body \x7b font-family: 'Arial', sans-serif; background-color: #87ceeb; margin: 0; padding: 0; \x7d" ++
    "h1 \x7b text-align: center; padding: 1rem; \x7d" ++
    ".section \x7b background: white; margin: 1rem auto; padding: 1rem; border-radius: 12px; width: 90%; max-width: 600px; box-shadow: 0 0 10px rgba(0,0,0,0.1); \x7d" ++
    ".input-group \x7b display: flex; justify-content: space-between; margin-top: 10px; \x7d" ++
    ".input-group label \x7b font-weight: bold; \x7d" ++
    "input[type=number] \x7b width: 45%; padding: 0.5rem; border: 1px solid #ccc; border-radius: 5px; \x7d" ++
    "canvas \x7b width: 100%; max-width: 100%; height: auto; margin-top: 1rem; \x7d" ++
    "</style></head><body><h1>WEATHER STATION</h1>")

/-- The C string `HTML_PART2` (`webserver.c`, lines 46-52): 340 bytes. -/
def HTML_PART2 : List Char :=
  String.toList (
    "<div class=\"section\">" ++
    "<h2>Temperatura (\xc2\xb0C)</h2>" ++
    "<canvas id=\"tempChart\"></canvas>" ++
    "<div class=\"input-group\">" ++
    "<input type=\"number\" id=\"temp_max\" placeholder=\"M\xc3\xa1ximo\" title=\"Temperatura m\xc3\xa1xima\" onchange=\"enviarLimites()\">" ++
    "<input type=\"number\" id=\"temp_min\" placeholder=\"M\xc3\xadnimo\" title=\"Temperatura m\xc3\xadnima\" onchange=\"enviarLimites()\">" ++
    "</div></div>")

/-- The C string `HTML_PART3` (`webserver.c`, lines 55-61): 323 bytes. -/
def HTML_PART3 : List Char :=
  String.toList (
    "<div class=\"section\">" ++
    "<h2>Umidade (%)</h2>" ++
    "<canvas id=\"humChart\"></canvas>" ++
    "<div class=\"input-group\">" ++
    "<input type=\"number\" id=\"hum_max\" placeholder=\"M\xc3\xa1ximo\" title=\"Umidade m\xc3\xa1xima\" onchange=\"enviarLimites()\">" ++
    "<input type=\"number\" id=\"hum_min\" placeholder=\"M\xc3\xadnimo\" title=\"Umidade m\xc3\xadnima\" onchange=\"enviarLimites()\">" ++
    "</div></div>")

/-- The C string `HTML_PART4` (`webserver.c`, lines 64-70): 333 bytes. -/
def HTML_PART4 : List Char :=
  String.toList (
    "<div class=\"section\">" ++
    "<h2>Press\xc3\xa3o (Pa)</h2>" ++
    "<canvas id=\"pressChart\"></canvas>" ++
    "<div class=\"input-group\">" ++
    "<input type=\"number\" id=\"press_max\" placeholder=\"M\xc3\xa1ximo\" title=\"Press\xc3\xa3o m\xc3\xa1xima\" onchange=\"enviarLimites()\">" ++
    "<input type=\"number\" id=\"press_min\" placeholder=\"M\xc3\xadnimo\" title=\"Press\xc3\xa3o m\xc3\xadnima\" onchange=\"enviarLimites()\">" ++
    "</div></div>")

/-- The C string `HTML_PART5` (`webserver.c`, lines 73-95): 933 bytes. -/
def HTML_PART5 : List Char :=
  String.toList (
    "<script src=\"https://cdn.jsdelivr.net/npm/chart.js\"></script>" ++
    "<script>" ++
    "const tempCtx = document.getElementById('tempChart').getContext('2d');" ++
    "const humCtx = document.getElementById('humChart').getContext('2d');" ++
    "const pressCtx = document.getElementById('pressChart').getContext('2d');" ++
    "let tempChart = new Chart(tempCtx, \x7b" ++
    "  type: 'line'," ++
    "  data: \x7b labels: [], datasets: [\x7b label: '\xc2\xb0C', data: [], borderColor: 'red', borderWidth: 2, fill: false \x7d] \x7d," ++
    "  options: \x7b scales: \x7b y: \x7b beginAtZero: false \x7d \x7d \x7d" ++
    "\x7d);" ++
    "let humChart = new Chart(humCtx, \x7b" ++
    "  type: 'line'," ++
    "  data: \x7b labels: [], datasets: [\x7b label: '%', data: [], borderColor: 'blue', borderWidth: 2, fill: false \x7d] \x7d," ++
    "  options: \x7b scales: \x7b y: \x7b beginAtZero: false \x7d \x7d \x7d" ++
    "\x7d);" ++
    "let pressChart = new Chart(pressCtx, \x7b" ++
    "  type: 'line'," ++
    "  data: \x7b labels: [], datasets: [\x7b label: 'Pa', data: [], borderColor: 'green', borderWidth: 2, fill: false \x7d] \x7d," ++
    "  options: \x7b scales: \x7b y: \x7b beginAtZero: false \x7d \x7d \x7d" ++
    "\x7d);")

/-- The C string `HTML_PART6` (`webserver.c`, lines 99-116): 557 bytes. -/
def HTML_PART6 : List Char :=
  String.toList (
    "function atualizarGraficos() \x7b" ++
    "fetch('/estado')" ++
    ".then(res => res.json())" ++
    ".then(data => \x7b" ++
    "  const labels = Array.from(\x7blength: data.temperaturas.length\x7d, (_, i) => i + 1);" ++
    "  tempChart.data.labels = labels;" ++
    "  humChart.data.labels = labels;" ++
    "  pressChart.data.labels = labels;" ++
    "  tempChart.data.datasets[0].data = data.temperaturas;" ++
    "  humChart.data.datasets[0].data = data.umidades;" ++
    "  pressChart.data.datasets[0].data = data.pressoes;" ++
    "  tempChart.update();" ++
    "  humChart.update();" ++
    "  pressChart.update();" ++
    "\x7d);" ++
    "\x7d" ++
    "setInterval(atualizarGraficos, 5000);" ++
    "window.onload = atualizarGraficos;")

/-- The C string `HTML_PART7` (`webserver.c`, lines 119-130): 469 bytes. -/
def HTML_PART7 : List Char :=
  String.toList (
    "function enviarLimites() \x7b" ++
    "  const params = new URLSearchParams(\x7b" ++
    "    temp_max: document.getElementById('temp_max').value," ++
    "    temp_min: document.getElementById('temp_min').value," ++
    "    hum_max: document.getElementById('hum_max').value," ++
    "    hum_min: document.getElementById('hum_min').value," ++
    "    press_max: document.getElementById('press_max').value," ++
    "    press_min: document.getElementById('press_min').value" ++
    "  \x7d);" ++
    "  fetch('/limites?' + params.toString());" ++
    "\x7d" ++
    "</script></body></html>")
/-! ## Request handling (`webserver.c`, lines 153-237) -/

/-- The three branches of `http_recv`. -/
inductive Route where
  | set_thresholds : Route
  | get_telemetry : Route
  | get_dashboard : Route
deriving DecidableEq, Repr

/-- The branch conditions of lines 161, 180 and 218, on the request string. -/
def route (req : List Char) : Route :=
  if (strstr req "GET /limites".toList).isSome then Route.set_thresholds
  else if (strstr req "GET /estado".toList).isSome then Route.get_telemetry
  else Route.get_dashboard

/-- Conversion of a length to the `u16_t` parameter of `tcp_write`. -/
def u16 (n : Nat) : Nat := n % 65536

/-- Lines 224-232: the calls of the default branch. -/
def dashboard_actions : List Action :=
  [ Action.tcp_write dashboard_header 0 (u16 dashboard_header.length),
    Action.tcp_write HTML_PART1 0 (u16 HTML_PART1.length),
    Action.tcp_write HTML_PART2 0 (u16 HTML_PART2.length),
    Action.tcp_write HTML_PART3 0 (u16 HTML_PART3.length),
    Action.tcp_write HTML_PART4 0 (u16 HTML_PART4.length),
    Action.tcp_write HTML_PART5 0 (u16 HTML_PART5.length),
    Action.tcp_write HTML_PART6 0 (u16 HTML_PART6.length),
    Action.tcp_write HTML_PART7 0 (u16 HTML_PART7.length),
    Action.tcp_output ]

/-- Lines 174-177 and 212-215: attach `hs` to the connection, register
`http_sent`, write the response and flush. -/
def send_actions (hs : http_state) : List Action :=
  [ Action.tcp_arg, Action.tcp_sent,
    Action.tcp_write hs.response 0 (u16 hs.len), Action.tcp_output ]

/-- What one call of `http_recv` leaves behind: its return value, the
thresholds, the state object attached to the connection (if one was
allocated) and the calls made, in order. -/
structure RecvResult (F : Type) where
  ret : err_t
  registry : Registry F
  hs : Option http_state
  actions : List Action

/-- The callback `http_recv` (lines 153-237).  `p = none` is the null `pbuf`;
`p = some payload` is a `pbuf` with `payload` the bytes in memory from
`p->payload` on (the chunk and what lies behind it, see `cstr`); `heap_ok`
tells whether `malloc` returns a block (`Action.malloc` records a successful
allocation).  The sample buffers are read, never written. -/
def http_recv {F : Type} (fmt : F → List Char) (scan : List Char → Option (F × List Char))
    (heap_ok : Bool) (reg : Registry F) (t : Telemetry F) (p : Option (List Char)) :
    RecvResult F :=
  match p with
  | none => { ret := err_t.ERR_OK, registry := reg, hs := none, actions := [Action.tcp_close] }
  | some payload =>
    let req := cstr payload
    match route req with
    | Route.set_thresholds =>
      if heap_ok then
        let reg1 := scan_thresholds scan reg req
        let out := snprintf 4096 redir_hdr
        let hs : http_state := { response := out.1, len := out.2, sent := 0 }
        { ret := err_t.ERR_OK, registry := reg1, hs := some hs,
          actions := Action.malloc :: send_actions hs ++ [Action.pbuf_free] }
      else
        { ret := err_t.ERR_MEM, registry := reg, hs := none, actions := [] }
    | Route.get_telemetry =>
      if heap_ok then
        let out := estado_response fmt t
        let hs : http_state := { response := out.1, len := out.2, sent := 0 }
        { ret := err_t.ERR_OK, registry := reg, hs := some hs,
          actions := Action.malloc :: send_actions hs ++ [Action.pbuf_free] }
      else
        { ret := err_t.ERR_MEM, registry := reg, hs := none, actions := [] }
    | Route.get_dashboard =>
      { ret := err_t.ERR_OK, registry := reg, hs := none,
        actions := dashboard_actions ++ [Action.pbuf_free] }

/-! ## The binary32 instance of the float parameters -/

/-- An IEEE 754 binary32 value by its three bit fields. -/
structure Float32 where
  sign : Bool
  expo : Fin 256
  frac : Fin 8388608
deriving DecidableEq, Repr

/-- Magnitude of a finite value in units of `2 ^ (-149)`. -/
def Float32.units (x : Float32) : Nat :=
  if x.expo.val = 0 then x.frac.val else (8388608 + x.frac.val) * 2 ^ (x.expo.val - 1)

/-- Nearest integer to `num / den`, ties to even. -/
def round_half_even (num den : Nat) : Nat :=
  if 2 * (num % den) < den then num / den
  else if den < 2 * (num % den) then num / den + 1
  else if (num / den) % 2 = 0 then num / den else num / den + 1

/-- Number of halvings that take `m` below 2, at most `fuel` of them. -/
def halvings : Nat → Nat → Nat
  | 0, _ => 0
  | fuel + 1, m => if m < 2 then 0 else halvings fuel (m / 2) + 1

/-- Floor of the binary logarithm of `n` (0 for `n = 0`). -/
def log2_floor (n : Nat) : Nat := halvings n n

/-- The binary32 value nearest to `num / den` (ties to even, overflow to
infinity), with sign bit `neg`. -/
def Float32.of_ratio (neg : Bool) (num den : Nat) : Float32 :=
  let a := num * 2 ^ 149
  let k := log2_floor (a / den) - 23
  let m := round_half_even a (den * 2 ^ k)
  let m1 := if m = 16777216 then 8388608 else m
  let k1 := if m = 16777216 then k + 1 else k
  if m1 < 8388608 then { sign := neg, expo := 0, frac := Fin.ofNat m1 }
  else if 254 ≤ k1 then { sign := neg, expo := 255, frac := 0 }
  else { sign := neg, expo := Fin.ofNat (k1 + 1), frac := Fin.ofNat (m1 - 8388608) }

/-- Output of `printf`'s `%.2f` for a binary32 argument: the exact value
rounded to two decimals (ties to even), `inf` and `nan` for the special
values. -/
def fmt_2f (x : Float32) : List Char :=
  let sgn : List Char := if x.sign then ['-'] else []
  if x.expo.val = 255 then
    sgn ++ (if x.frac.val = 0 then "inf".toList else "nan".toList)
  else
    let n := round_half_even (x.units * 100) (2 ^ 149)
    sgn ++ Nat.toDigits 10 (n / 100) ++
      ['.', Nat.digitChar (n / 10 % 10), Nat.digitChar (n % 10)]

/-- A number in plain decimal notation, as text: an optional sign, the digits
before the point, and the digits after the point when there is a point. -/
structure Decimal where
  sign : List Char
  int_digits : List Char
  frac_digits : Option (List Char)
deriving DecidableEq, Repr

/-- The point and the digits behind it, when there is a point. -/
def frac_text : Option (List Char) → List Char
  | none => []
  | some fs => '.' :: fs

/-- The characters of a decimal number. -/
def Decimal.text (d : Decimal) : List Char :=
  d.sign ++ d.int_digits ++ frac_text d.frac_digits

/-- Value of a digit string read as a natural number. -/
def digits_value (ds : List Char) : Nat :=
  ds.foldl (fun acc c => 10 * acc + (c.toNat - '0'.toNat)) 0

/-- The binary32 value a decimal number converts to (`strtof`). -/
def Decimal.to_float32 (d : Decimal) : Float32 :=
  Float32.of_ratio (d.sign == ['-'])
    (digits_value (d.int_digits ++ d.frac_digits.getD []))
    (10 ^ (d.frac_digits.getD []).length)

/-- The longest plain decimal number at the front of the input, after leading
white space, and the input behind it; `none` when there is no digit. -/
def lex_decimal (input : List Char) : Option (Decimal × List Char) :=
  let s0 := input.dropWhile isspace
  let sign := s0.take (if s0.head? = some '-' ∨ s0.head? = some '+' then 1 else 0)
  let s1 := s0.drop sign.length
  let ip := s1.takeWhile isdigit
  let s2 := s1.dropWhile isdigit
  let fp := if s2.head? = some '.' then some ((s2.drop 1).takeWhile isdigit) else none
  let s3 := if s2.head? = some '.' then (s2.drop 1).dropWhile isdigit else s2
  if ip = [] ∧ fp.getD [] = [] then none
  else some ({ sign := sign, int_digits := ip, frac_digits := fp }, s3)

/-- The `%f` conversion of `scanf` on plain decimal input (for a `float *`
argument).  Exponents, hexadecimal notation, infinities and NaNs are not
part of this instance, so it agrees with the library conversion only on input
in plain decimal notation followed by a character that cannot continue a
number.  The general statements below take the conversion as a parameter
`scan`; `scan_f` is used to evaluate concrete requests of that form. -/
def scan_f (input : List Char) : Option (Float32 × List Char) :=
  (lex_decimal input).map (fun r => (r.1.to_float32, r.2))

/-- The initial values of the thresholds: `TEMP_MAX 35.0f`, `TEMP_MIN 20.0f`,
`HUM_MAX 90.0f`, `HUM_MIN 70.0f`, `PRESS_MAX 20.0f`, `PRESS_MIN 0.0f`. -/
def default_registry : Registry Float32 :=
  { temp_max_user := Float32.of_ratio false 35 1
    temp_min_user := Float32.of_ratio false 20 1
    hum_max_user := Float32.of_ratio false 90 1
    hum_min_user := Float32.of_ratio false 70 1
    press_max_user := Float32.of_ratio false 20 1
    press_min_user := Float32.of_ratio false 0 1 }

/-- The positive zero, the initial value of every buffer slot (`= {0}`). -/
def Float32.zero : Float32 := { sign := false, expo := 0, frac := 0 }

/-- The sample buffers at program start (lines 94-100). -/
def initial_telemetry : Telemetry Float32 :=
  { temp_buffer := fun _ => Float32.zero
    hum_buffer := fun _ => Float32.zero
    press_buffer := fun _ => Float32.zero
    buffer_index := 0 }

/-- A decimal number is well formed: the sign is absent, `+` or `-`, every
other character is a digit, and there is at least one digit. -/
def Decimal.well_formed (d : Decimal) : Prop :=
  (d.sign = [] ∨ d.sign = ['+'] ∨ d.sign = ['-']) ∧
  (∀ c ∈ d.int_digits, isdigit c = true) ∧
  (∀ c ∈ d.frac_digits.getD [], isdigit c = true) ∧
  (d.int_digits ≠ [] ∨ d.frac_digits.getD [] ≠ [])

instance (d : Decimal) : Decidable d.well_formed := by
  unfold Decimal.well_formed
  exact inferInstance

/-- The input behind a number does not continue it: it is empty or starts
with a character that is neither a letter, a digit nor a point. -/
def ends_number (rest : List Char) : Prop :=
  ∀ c, rest.head? = some c → (c.isAlphanum || c == '.') = false

instance (rest : List Char) : Decidable (ends_number rest) :=
  match rest with
  | [] => isTrue (by intro c h; simp at h)
  | x :: _ =>
    if hx : (x.isAlphanum || x == '.') = false then
      isTrue (by intro c h; simp at h; subst h; exact hx)
    else
      isFalse (fun h => hx (h x rfl))

/-- What the first `n` iterations of the loop of lines 187-198 would append
for one buffer if nothing were cut off. -/
def loop_text {F : Type} (fmt : F → List Char) (t : Telemetry F)
    (buf : Fin MAX_BUFFER_SIZE → F) (n : Nat) : List Char :=
  ((List.range n).map (fun i => value_text fmt (buf (read_index t i)) i)).flatten

/-- The 20 values of one buffer in the order `http_recv` reads them. -/
def read_order {F : Type} (t : Telemetry F) (buf : Fin MAX_BUFFER_SIZE → F) : List F :=
  (List.range MAX_BUFFER_SIZE).map (fun i => buf (read_index t i))

/-- A JSON array body as the specification describes it: the values formatted
one by one, separated by single commas, no comma at the end. -/
def comma_joined {F : Type} (fmt : F → List Char) (xs : List F) : List Char :=
  [','].intercalate (xs.map fmt)

/-- The JSON object around three array bodies. -/
def json_object (temps hums press : List Char) : List Char :=
  "\x7b\"temperaturas\":[".toList ++ temps ++ "],\"umidades\":[".toList ++ hums ++
    "],\"pressoes\":[".toList ++ press ++ "]\x7d".toList

/-- The bytes the default branch hands to `tcp_write`, in order. -/
def dashboard_bytes : List Char :=
  dashboard_header ++ HTML_PART1 ++ HTML_PART2 ++ HTML_PART3 ++ HTML_PART4 ++
    HTML_PART5 ++ HTML_PART6 ++ HTML_PART7

/-- The bytes one call hands to the TCP stack: `n` bytes from offset `off` of
the source string for a `tcp_write`, nothing for any other call. -/
def Action.bytes : Action → List Char
  | Action.tcp_write src off n => (src.drop off).take n
  | _ => []

/-- The bytes a list of calls hands to the TCP stack, in order. -/
def written_bytes (l : List Action) : List Char :=
  (l.map Action.bytes).flatten

/-- The number of values the `sscanf` call of line 166 converts and stores
(its return value, except where that is `EOF`). -/
def sscanf_count {F : Type} (scan : List Char → Option (F × List Char)) (req : List Char) :
    Nat :=
  (sscanf scan (parse_format limites_format) req).length

/-! ## Concrete requests and states -/

/-- The binary32 value `1e38f` (bits `0x7E967699`), exactly
99999996802856924650656260769173209088. -/
def Float32.e38 : Float32 := { sign := false, expo := 253, frac := 1472153 }

/-- Sample buffers whose temperature slots all hold `1e38f`. -/
def huge_telemetry : Telemetry Float32 :=
  { temp_buffer := fun _ => Float32.e38
    hum_buffer := fun _ => Float32.zero
    press_buffer := fun _ => Float32.zero
    buffer_index := 0 }


/-- A Set-Thresholds request with all six parameters. -/
def req_six_params : List Char :=
  String.toList
    ("GET /limites?temp_max=40.0&temp_min=10.0&hum_max=80.0&hum_min=30.0" ++
     "&press_max=105.0&press_min=95.0 HTTP/1.1\r\n\r\n")

/-- A Set-Thresholds request whose query lacks `temp_min`. -/
def req_missing_temp_min : List Char :=
  String.toList
    ("GET /limites?temp_max=40.0&hum_max=80.0&hum_min=30.0" ++
     "&press_max=105.0&press_min=95.0 HTTP/1.1\r\n\r\n")

/-- A Get-Telemetry request. -/
def req_estado : List Char :=
  String.toList "GET /estado HTTP/1.1\r\nHost: pico\r\n\r\n"

/-- The same request line as `req_estado`, with a header that mentions
`GET /limites`. -/
def req_estado_with_header : List Char :=
  String.toList "GET /estado HTTP/1.1\r\nX-Note: GET /limites\r\n\r\n"

/-- The connection state `http_recv` creates for a Set-Thresholds request. -/
def redirect_state : http_state :=
  { response := redir_hdr, len := 35, sent := 0 }

/-- A request for the dashboard. -/
def req_dashboard : List Char :=
  String.toList "GET / HTTP/1.1\r\nHost: pico\r\n\r\n"

/-- The number `40.0`. -/
def dec_40_0 : Decimal := { sign := [], int_digits := ['4', '0'], frac_digits := some ['0'] }

/-- The number `10.0`. -/
def dec_10_0 : Decimal := { sign := [], int_digits := ['1', '0'], frac_digits := some ['0'] }

/-- The number `80.0`. -/
def dec_80_0 : Decimal := { sign := [], int_digits := ['8', '0'], frac_digits := some ['0'] }

/-- The number `30.0`. -/
def dec_30_0 : Decimal := { sign := [], int_digits := ['3', '0'], frac_digits := some ['0'] }

/-- The number `105.0`. -/
def dec_105_0 : Decimal :=
  { sign := [], int_digits := ['1', '0', '5'], frac_digits := some ['0'] }

/-- The number `95.0`. -/
def dec_95_0 : Decimal := { sign := [], int_digits := ['9', '5'], frac_digits := some ['0'] }

/-- The `j`-th sample of a numbered series: temperature `j`, humidity `j / 2`,
pressure `j / 10`. -/
def numbered_sample (j : Nat) : Sample Float32 :=
  { temperature := Float32.of_ratio false j 1
    humidity := Float32.of_ratio false j 2
    pressure := Float32.of_ratio false j 10 }

/-! ## Globals seen by the server -/

/-- The thresholds as a list, in the order of the pointer arguments of the
`sscanf` call: `temp_max`, `temp_min`, `hum_max`, `hum_min`, `press_max`,
`press_min`. -/
def Registry.to_list {F : Type} (r : Registry F) : List F :=
  [r.temp_max_user, r.temp_min_user, r.hum_max_user, r.hum_min_user,
   r.press_max_user, r.press_min_user]

/-- The globals `webserver.c` declares `extern`: the thresholds and the sample
buffers with their index. -/
structure Globals (F : Type) where
  registry : Registry F
  telemetry : Telemetry F

/-- The globals after one call of `http_recv`.  The thresholds are those the
call leaves; the sample buffers and `buffer_index` are the ones it was called
with, since `http_recv` only reads them (lines 188-197) and no statement of it
assigns to them. -/
def globals_after_recv {F : Type} (fmt : F → List Char)
    (scan : List Char → Option (F × List Char)) (heap_ok : Bool) (g : Globals F)
    (p : Option (List Char)) : Globals F :=
  { registry := (http_recv fmt scan heap_ok g.registry g.telemetry p).registry
    telemetry := g.telemetry }

/-- Whether a call is a `tcp_write`. -/
def Action.is_write : Action → Bool
  | Action.tcp_write _ _ _ => true
  | _ => false

/-! ## LED matrix (`weather_station.c`, lines 46-47 and 153-225) -/

/-- Number of LEDs of the matrix: `#define NUM_LEDS 25`. -/
abbrev NUM_LEDS : Nat := 25

/-- The function `urgb_u32` (lines 164-166): the three `uint8_t` colour
components packed as `(g << 16) | (r << 8) | b`. -/
def urgb_u32 (r g b : Nat) : Nat :=
  ((g % 256) <<< 16) ||| ((r % 256) <<< 8) ||| (b % 256)

/-- Whether a binary32 value is a NaN. -/
def Float32.is_nan (x : Float32) : Bool :=
  decide (x.expo.val = 255) && decide (x.frac.val ≠ 0)

/-- The value in units of `2 ^ (-149)`, with its sign; an infinity counts as
`2 ^ 128`, beyond every finite value. -/
def Float32.signed_units (x : Float32) : Int :=
  if x.sign then -(x.units : Int) else (x.units : Int)

/-- The comparison `x > c` of C for a `float` `x` and the constant `c.0`. -/
def Float32.gt_const (x : Float32) (c : Nat) : Bool :=
  !x.is_nan && decide ((c : Int) * 2 ^ 149 < x.signed_units)

/-- The comparison `x >= c` of C for a `float` `x` and the constant `c.0`. -/
def Float32.ge_const (x : Float32) (c : Nat) : Bool :=
  !x.is_nan && decide ((c : Int) * 2 ^ 149 ≤ x.signed_units)

/-- The comparison `x <= c` of C for a `float` `x` and the constant `c.0`. -/
def Float32.le_const (x : Float32) (c : Nat) : Bool :=
  !x.is_nan && decide (x.signed_units ≤ (c : Int) * 2 ^ 149)

/-- The loop `for (int i = 0; i <= last; i++) frame[i] = color;`. -/
def fill_leds (frame : List Nat) (last : Nat) (color : Nat) : List Nat :=
  (List.range (last + 1)).foldl (fun f i => f.set i color) frame

/-- The array `frame` of `update_matrix` (lines 171-218) when the loop that
sends it starts: 25 LEDs off, then the LEDs of the branch taken set to its
colour. -/
def update_matrix_frame (nivel_percentual : Float32) : List Nat :=
  let frame := List.replicate NUM_LEDS 0
  let cor_azul := urgb_u32 0 0 4
  let cor_vermelha := urgb_u32 4 0 0
  if nivel_percentual.ge_const 20 && nivel_percentual.le_const 30 then
    fill_leds frame 4 cor_vermelha
  else if nivel_percentual.gt_const 30 && nivel_percentual.le_const 39 then
    fill_leds frame 4 cor_azul
  else if nivel_percentual.gt_const 39 && nivel_percentual.le_const 59 then
    fill_leds frame 9 cor_azul
  else if nivel_percentual.gt_const 59 && nivel_percentual.le_const 70 then
    fill_leds frame 14 cor_azul
  else if nivel_percentual.gt_const 70 && nivel_percentual.le_const 79 then
    fill_leds frame 14 cor_azul
  else if nivel_percentual.gt_const 79 && nivel_percentual.le_const 99 then
    fill_leds frame 19 cor_vermelha
  else if nivel_percentual.gt_const 99 then
    fill_leds frame 24 cor_vermelha
  else
    frame

/-- The function `update_matrix` (lines 171-225): the 25 words handed to
`pio_sm_put_blocking` by `ws2812_put_pixel`, each `frame[i] << 8` as a
`uint32_t`. -/
def update_matrix (nivel_percentual : Float32) : List Nat :=
  (update_matrix_frame nivel_percentual).map (fun pixel_grb => (pixel_grb <<< 8) % 2 ^ 32)

/-- The frame the comment of line 202 describes: the first three rows (LEDs
0 to 14) red, the other LEDs off. -/
def three_rows_red : List Nat :=
  List.replicate 15 (urgb_u32 4 0 0) ++ List.replicate 10 0

/-- The frame with the first three rows (LEDs 0 to 14) blue, the other LEDs
off. -/
def three_rows_blue : List Nat :=
  List.replicate 15 (urgb_u32 0 0 4) ++ List.replicate 10 0

/-- The humidity `75.0f`. -/
def Float32.seventy_five : Float32 := Float32.of_ratio false 75 1

/-- A request without a blank after `GET`, with a header that mentions
`GET /limites`. -/
def req_no_blank : List Char :=
  String.toList "GET/limites?temp_max=40.0 HTTP/1.1\r\nX-Note: GET /limites\r\n\r\n"

/-- Bytes lying in memory behind a received chunk, here the start of an
earlier request. -/
def stale_bytes : List Char :=
  String.toList "GET /limites?temp_max=1 HTTP/1.1\r\n\r\n"

/-- The request with six parameters, with the digit `5` directly behind the
last number: its query ends `press_min=95.05`. -/
def req_trailing_digit : List Char :=
  "GET /limites?temp_max=".toList ++ (dec_40_0.text ++ ("&temp_min=".toList ++
    (dec_10_0.text ++ ("&hum_max=".toList ++ (dec_80_0.text ++ ("&hum_min=".toList ++
    (dec_30_0.text ++ ("&press_max=".toList ++ (dec_105_0.text ++ ("&press_min=".toList ++
    (dec_95_0.text ++ "5 HTTP/1.1\r\n\r\n".toList)))))))))))

set_option maxRecDepth 20000

/-! ## Ring-buffer lemmas -/

theorem run_writes_index {F : Type} (s0 : Telemetry F) (w : Nat → Sample F)
    (h0 : s0.buffer_index.val = 0) (k : Nat) :
    (run_writes s0 w k).buffer_index.val = k % MAX_BUFFER_SIZE := by
  induction k with
  | zero => simpa [run_writes] using h0
  | succ k ih =>
    simp only [run_writes, store_sample, next_index, ih, MAX_BUFFER_SIZE]
    omega

/-- Slot `j % 20` holds the `j`-th written sample for as long as fewer than 20
further samples have been written. -/
theorem run_writes_slot {F : Type} (s0 : Telemetry F) (w : Nat → Sample F)
    (h0 : s0.buffer_index.val = 0) (k : Nat) :
    ∀ j, j < k → k ≤ j + MAX_BUFFER_SIZE →
      ∀ q : Fin MAX_BUFFER_SIZE, q.val = j % MAX_BUFFER_SIZE →
        (run_writes s0 w k).temp_buffer q = (w j).temperature ∧
        (run_writes s0 w k).hum_buffer q = (w j).humidity ∧
        (run_writes s0 w k).press_buffer q = (w j).pressure := by
  induction k with
  | zero => intro j hj; omega
  | succ k ih =>
    intro j hj hk q hq
    have hidx := run_writes_index s0 w h0 k
    simp only [MAX_BUFFER_SIZE] at hk hq hidx ih
    by_cases hjk : j = k
    · subst hjk
      have hqe : q = (run_writes s0 w j).buffer_index := Fin.ext (by omega)
      subst hqe
      simp [run_writes, store_sample]
    · have hne : q ≠ (run_writes s0 w k).buffer_index := by
        intro h
        have := congrArg Fin.val h
        omega
      have := ih j (by omega) (by omega) q hq
      simpa [run_writes, store_sample, Function.update_noteq hne] using this

/-- Claim C1. After any `k ≥ 20` iterations of the sampling loop started with
`buffer_index = 0`, the read order of `http_recv` (slot
`(buffer_index + i) % 20` for `i = 0..19`) yields the last 20 written samples
oldest first: position `i` holds the `(k - 20 + i)`-th written sample, for
temperature, humidity and pressure alike. -/
theorem ring_read_last_twenty {F : Type} (s0 : Telemetry F) (w : Nat → Sample F)
    (h0 : s0.buffer_index.val = 0) (k : Nat) (hk : MAX_BUFFER_SIZE ≤ k)
    (i : Nat) (hi : i < MAX_BUFFER_SIZE) :
    (read_sample (run_writes s0 w k) i).temperature
        = (w (k - MAX_BUFFER_SIZE + i)).temperature ∧
    (read_sample (run_writes s0 w k) i).humidity
        = (w (k - MAX_BUFFER_SIZE + i)).humidity ∧
    (read_sample (run_writes s0 w k) i).pressure
        = (w (k - MAX_BUFFER_SIZE + i)).pressure := by
  have hidx := run_writes_index s0 w h0 k
  simp only [MAX_BUFFER_SIZE] at hk hi hidx
  exact run_writes_slot s0 w h0 k (k - MAX_BUFFER_SIZE + i)
    (by simp only [MAX_BUFFER_SIZE]; omega) (by simp only [MAX_BUFFER_SIZE]; omega)
    (read_index (run_writes s0 w k) i)
    (by simp only [read_index, MAX_BUFFER_SIZE]; omega)

/-- Claim C1 (witness). After 45 numbered samples, position 3 of the read order
holds sample 28 = 45 - 20 + 3. -/
theorem ring_read_last_twenty_witness :
    (initial_telemetry.buffer_index.val = 0 ∧ MAX_BUFFER_SIZE ≤ 45 ∧ 3 < MAX_BUFFER_SIZE) ∧
    (read_sample (run_writes initial_telemetry numbered_sample 45) 3).temperature
      = (numbered_sample 28).temperature ∧
    (read_sample (run_writes initial_telemetry numbered_sample 45) 3).humidity
      = (numbered_sample 28).humidity ∧
    (read_sample (run_writes initial_telemetry numbered_sample 45) 3).pressure
      = (numbered_sample 28).pressure :=
  ⟨⟨rfl, by decide, by decide⟩,
   ring_read_last_twenty initial_telemetry numbered_sample rfl 45 (by decide) 3 (by decide)⟩

/-! ## C string lemmas -/

theorem strstr_isSome_iff (hay needle : List Char) :
    (strstr hay needle).isSome = true ↔ needle <:+: hay := by
  induction hay with
  | nil =>
    cases needle <;> simp [strstr, List.isPrefixOf]
  | cons c hay ih =>
    rw [strstr, List.infix_cons_iff]
    by_cases hp : needle.isPrefixOf (c :: hay) = true
    · rw [if_pos hp]
      simp only [Option.isSome_some, true_iff]
      exact Or.inl (List.isPrefixOf_iff_prefix.mp hp)
    · rw [if_neg hp, ih]
      constructor
      · exact Or.inr
      · rintro (h | h)
        · exact absurd (List.isPrefixOf_iff_prefix.mpr h) hp
        · exact h

theorem cstr_append_of_no_nul (p r : List Char) (hp : ∀ c ∈ p, c ≠ '\x00') :
    cstr (p ++ r) = p ++ cstr r := by
  induction p with
  | nil => rfl
  | cons x p ih =>
    have hx : x ≠ '\x00' := hp x (List.mem_cons_self _ _)
    have := ih (fun c hc => hp c (List.mem_cons_of_mem _ hc))
    simp only [cstr] at this ⊢
    have hb : (x != '\x00') = true := by simpa using hx
    rw [List.cons_append, List.takeWhile_cons, if_pos hb, this, List.cons_append]

theorem route_set_thresholds_iff (req : List Char) :
    route req = Route.set_thresholds ↔ "GET /limites".toList <:+: req := by
  rw [← strstr_isSome_iff]
  unfold route
  generalize (strstr req "GET /limites".toList).isSome = a
  generalize (strstr req "GET /estado".toList).isSome = b
  cases a <;> cases b <;> simp

theorem route_get_telemetry_iff (req : List Char) :
    route req = Route.get_telemetry ↔
      ¬ "GET /limites".toList <:+: req ∧ "GET /estado".toList <:+: req := by
  rw [← strstr_isSome_iff, ← strstr_isSome_iff]
  unfold route
  generalize (strstr req "GET /limites".toList).isSome = a
  generalize (strstr req "GET /estado".toList).isSome = b
  cases a <;> cases b <;> simp

theorem route_get_dashboard_iff (req : List Char) :
    route req = Route.get_dashboard ↔
      ¬ "GET /limites".toList <:+: req ∧ ¬ "GET /estado".toList <:+: req := by
  rw [← strstr_isSome_iff, ← strstr_isSome_iff]
  unfold route
  generalize (strstr req "GET /limites".toList).isSome = a
  generalize (strstr req "GET /estado".toList).isSome = b
  cases a <;> cases b <;> simp

theorem cstr_keeps_start (p chunk : List Char) (hp : ∀ c ∈ p, c ≠ '\x00')
    (h : p <+: chunk) : p <+: cstr chunk := by
  obtain ⟨r, rfl⟩ := h
  rw [cstr_append_of_no_nul p r hp]
  exact List.prefix_append _ _

theorem cstr_append_of_nul (chunk behind : List Char) (h : '\x00' ∈ chunk) :
    cstr (chunk ++ behind) = cstr chunk := by
  induction chunk with
  | nil => simp at h
  | cons x chunk ih =>
    by_cases hx : (x != '\x00') = true
    · have hm : '\x00' ∈ chunk := by
        rcases List.mem_cons.mp h with h1 | h1
        · rw [← h1] at hx; exact absurd hx (by decide)
        · exact h1
      have := ih hm
      simp only [cstr] at this ⊢
      rw [List.cons_append, List.takeWhile_cons, if_pos hx, List.takeWhile_cons, if_pos hx,
        this]
    · simp only [cstr]
      rw [List.cons_append, List.takeWhile_cons, if_neg hx, List.takeWhile_cons, if_neg hx]

/-- Claim C3 (as amended). The router tests for an occurrence, not for a
prefix, and it searches the C string at the address of the chunk: `chunk`
followed by the bytes `behind` it in memory, up to the first NUL byte (the
chunk alone when it contains a NUL; the chunk and the bytes behind it up to
their first NUL otherwise).  The request is classified Set-Thresholds exactly
when `GET /limites` occurs anywhere in that string, Get-Telemetry exactly
when it does not and `GET /estado` occurs anywhere in it, and Get-Dashboard
in every other case.  A chunk that begins with `GET /limites` is therefore
Set-Thresholds whatever follows, and one that begins with `GET /estado` is
Get-Telemetry unless `GET /limites` occurs in the string. -/
theorem route_by_occurrence (chunk behind : List Char) :
    (route (cstr (chunk ++ behind)) = Route.set_thresholds ↔
        "GET /limites".toList <:+: cstr (chunk ++ behind)) ∧
    (route (cstr (chunk ++ behind)) = Route.get_telemetry ↔
        ¬ "GET /limites".toList <:+: cstr (chunk ++ behind) ∧
          "GET /estado".toList <:+: cstr (chunk ++ behind)) ∧
    (route (cstr (chunk ++ behind)) = Route.get_dashboard ↔
        ¬ "GET /limites".toList <:+: cstr (chunk ++ behind) ∧
          ¬ "GET /estado".toList <:+: cstr (chunk ++ behind)) ∧
    ("GET /limites".toList <+: chunk →
        route (cstr (chunk ++ behind)) = Route.set_thresholds) ∧
    ("GET /estado".toList <+: chunk → ¬ "GET /limites".toList <:+: cstr (chunk ++ behind) →
        route (cstr (chunk ++ behind)) = Route.get_telemetry) ∧
    ('\x00' ∈ chunk → cstr (chunk ++ behind) = cstr chunk) ∧
    ('\x00' ∉ chunk → cstr (chunk ++ behind) = chunk ++ cstr behind) := by
  refine ⟨route_set_thresholds_iff _, route_get_telemetry_iff _, route_get_dashboard_iff _,
    ?_, ?_, cstr_append_of_nul chunk behind, ?_⟩
  · intro h
    rw [route_set_thresholds_iff]
    exact (cstr_keeps_start _ _ (by decide) (h.trans (List.prefix_append _ _))).isInfix
  · intro h hn
    rw [route_get_telemetry_iff]
    exact ⟨hn, (cstr_keeps_start _ _ (by decide) (h.trans (List.prefix_append _ _))).isInfix⟩
  · intro h
    exact cstr_append_of_no_nul chunk behind (fun c hc hz => h (hz ▸ hc))

/-- Claim C3 (witness). The request `GET / HTTP/1.1 ...` contains neither
`GET /limites` nor a NUL byte.  With a NUL right behind it in memory it is
classified Get-Dashboard; with the bytes of an earlier `GET /limites` request
behind it, it is classified Set-Thresholds. -/
theorem route_by_occurrence_witness :
    ¬ "GET /limites".toList <:+: req_dashboard ∧
    route (cstr (req_dashboard ++ ['\x00'])) = Route.get_dashboard ∧
    route (cstr (req_dashboard ++ stale_bytes)) = Route.set_thresholds :=
  ⟨by rw [← strstr_isSome_iff]; decide,
   (route_by_occurrence req_dashboard ['\x00']).2.2.1.mpr
     ⟨by rw [← strstr_isSome_iff]; decide, by rw [← strstr_isSome_iff]; decide⟩,
   (route_by_occurrence req_dashboard stale_bytes).1.mpr
     (by rw [← strstr_isSome_iff]; decide)⟩

/-- Claim C3 (counterexample). `req_estado_with_header` begins with `GET /estado`
and not with `GET /limites`, yet it is classified Set-Thresholds; it has the
same first line as `req_estado`, which is classified Get-Telemetry. -/
theorem route_looks_past_first_line :
    "GET /estado".toList <+: req_estado_with_header ∧
    ¬ "GET /limites".toList <+: req_estado_with_header ∧
    route (cstr req_estado_with_header) = Route.set_thresholds ∧
    req_estado_with_header.takeWhile (fun c => c != '\r')
      = req_estado.takeWhile (fun c => c != '\r') ∧
    route (cstr req_estado) = Route.get_telemetry := by
  refine ⟨?_, ?_, ?_, ?_, ?_⟩
  · rw [← List.isPrefixOf_iff_prefix]; decide
  · rw [← List.isPrefixOf_iff_prefix]; decide
  · decide
  · decide
  · decide

/-! ## Threshold parsing lemmas -/

/-- The registry after the `sscanf` call, field by field: the `k`-th field is
the `k`-th converted value when there is one, and its old value otherwise. -/
theorem store_threshold_args {F : Type} (reg : Registry F) (vals : List F) :
    store_args threshold_args vals reg =
      { temp_max_user := vals.getD 0 reg.temp_max_user
        temp_min_user := vals.getD 1 reg.temp_min_user
        hum_max_user := vals.getD 2 reg.hum_max_user
        hum_min_user := vals.getD 3 reg.hum_min_user
        press_max_user := vals.getD 4 reg.press_max_user
        press_min_user := vals.getD 5 reg.press_min_user } := by
  rcases vals with _ | ⟨a, _ | ⟨b, _ | ⟨c, _ | ⟨d, _ | ⟨e, _ | ⟨f, vals⟩⟩⟩⟩⟩⟩ <;>
    rfl

/-- The result of `http_recv` in the Set-Thresholds branch, allocation succeeding. -/
theorem http_recv_set_thresholds {F : Type} (fmt : F → List Char)
    (scan : List Char → Option (F × List Char)) (reg : Registry F)
    (t : Telemetry F) (payload : List Char)
    (hroute : route (cstr payload) = Route.set_thresholds) :
    http_recv fmt scan true reg t (some payload) =
      { ret := err_t.ERR_OK
        registry := scan_thresholds scan reg (cstr payload)
        hs := some { response := (snprintf 4096 redir_hdr).1
                     len := (snprintf 4096 redir_hdr).2, sent := 0 }
        actions := Action.malloc ::
          send_actions { response := (snprintf 4096 redir_hdr).1
                         len := (snprintf 4096 redir_hdr).2, sent := 0 } ++
            [Action.pbuf_free] } := by
  simp only [http_recv, hroute, if_true]

/-- The result of `http_recv` in the Get-Telemetry branch, allocation succeeding. -/
theorem http_recv_get_telemetry {F : Type} (fmt : F → List Char)
    (scan : List Char → Option (F × List Char)) (reg : Registry F)
    (t : Telemetry F) (payload : List Char)
    (hroute : route (cstr payload) = Route.get_telemetry) :
    http_recv fmt scan true reg t (some payload) =
      { ret := err_t.ERR_OK
        registry := reg
        hs := some { response := (estado_response fmt t).1
                     len := (estado_response fmt t).2, sent := 0 }
        actions := Action.malloc ::
          send_actions { response := (estado_response fmt t).1
                         len := (estado_response fmt t).2, sent := 0 } ++
            [Action.pbuf_free] } := by
  simp only [http_recv, hroute, if_true]

/-- The result of `http_recv` in the default branch. -/
theorem http_recv_get_dashboard {F : Type} (fmt : F → List Char)
    (scan : List Char → Option (F × List Char)) (heap_ok : Bool) (reg : Registry F)
    (t : Telemetry F) (payload : List Char)
    (hroute : route (cstr payload) = Route.get_dashboard) :
    http_recv fmt scan heap_ok reg t (some payload) =
      { ret := err_t.ERR_OK, registry := reg, hs := none
        actions := dashboard_actions ++ [Action.pbuf_free] } := by
  simp only [http_recv, hroute]

/-- The result of `http_recv` when `malloc` fails in one of the two allocating branches. -/
theorem http_recv_no_memory {F : Type} (fmt : F → List Char)
    (scan : List Char → Option (F × List Char)) (reg : Registry F)
    (t : Telemetry F) (payload : List Char)
    (hroute : route (cstr payload) ≠ Route.get_dashboard) :
    http_recv fmt scan false reg t (some payload) =
      { ret := err_t.ERR_MEM, registry := reg, hs := none, actions := [] } := by
  cases hr : route (cstr payload)
  · simp [http_recv, hr]
  · simp [http_recv, hr]
  · exact absurd hr hroute

/-- The thresholds after `http_recv` on a non-null `pbuf`: rewritten by the
`sscanf` call in the Set-Thresholds branch, untouched everywhere else. -/
theorem http_recv_registry {F : Type} (fmt : F → List Char)
    (scan : List Char → Option (F × List Char)) (heap_ok : Bool) (reg : Registry F)
    (t : Telemetry F) (payload : List Char) :
    (http_recv fmt scan heap_ok reg t (some payload)).registry =
      if route (cstr payload) = Route.set_thresholds ∧ heap_ok = true then
        scan_thresholds scan reg (cstr payload)
      else reg := by
  cases hr : route (cstr payload)
  · cases heap_ok
    · rw [http_recv_no_memory fmt scan reg t payload (by simp [hr])]; simp
    · rw [http_recv_set_thresholds fmt scan reg t payload hr]; simp
  · cases heap_ok
    · rw [http_recv_no_memory fmt scan reg t payload (by simp [hr])]; simp
    · rw [http_recv_get_telemetry fmt scan reg t payload hr]; simp
  · rw [http_recv_get_dashboard fmt scan heap_ok reg t payload hr]; simp

/-- The call `sscanf` converts at most as many values as the format has `%f`
directives. -/
theorem sscanf_length_le {F : Type} (scan : List Char → Option (F × List Char))
    (ds : List Directive) :
    ∀ input : List Char, (sscanf scan ds input).length ≤ ds.count Directive.conv_f := by
  induction ds with
  | nil => intro input; simp [sscanf]
  | cons d ds ih =>
    intro input
    cases d with
    | space =>
      simp only [sscanf]
      exact (ih _).trans (List.count_le_count_cons _ _ _)
    | lit c =>
      cases input with
      | nil => simp [sscanf]
      | cons x rest =>
        simp only [sscanf]
        split
        · exact (ih _).trans (List.count_le_count_cons _ _ _)
        · simp
    | conv_f =>
      simp only [sscanf]
      cases hs : scan input with
      | none => simp
      | some r =>
        simp only [List.length_cons, List.count_cons_self]
        exact Nat.succ_le_succ (ih _)

theorem sscanf_count_le_six {F : Type} (scan : List Char → Option (F × List Char))
    (req : List Char) : sscanf_count scan req ≤ 6 := by
  have h := sscanf_length_le scan (parse_format limites_format) req
  have hc : (parse_format limites_format).count Directive.conv_f = 6 := by decide
  rw [hc] at h
  exact h

/-- The fields after the `sscanf` call, in order: the converted values, then
the old values of the fields behind them. -/
theorem store_threshold_args_to_list {F : Type} (reg : Registry F) (vals : List F)
    (h : vals.length ≤ 6) :
    (store_args threshold_args vals reg).to_list = vals ++ reg.to_list.drop vals.length := by
  rcases vals with _ | ⟨a, _ | ⟨b, _ | ⟨c, _ | ⟨d, _ | ⟨e, _ | ⟨f, _ | ⟨x, vals⟩⟩⟩⟩⟩⟩⟩
  · rfl
  · rfl
  · rfl
  · rfl
  · rfl
  · rfl
  · rfl
  · simp only [List.length_cons] at h
    omega

/-- Claim C2 (as amended). For a request routed to Set-Thresholds whose query
does not match all six parameters (`sscanf` converts fewer than six values),
every field from the first unmatched parameter on keeps its value:
`press_min` always, `press_max` when fewer than five values were converted,
and so on down to `temp_max` when none was.  The parameters matched before
the mismatch are stored (when the allocation succeeds): the fields are, in
order, the converted values followed by the old values of the rest. -/
theorem unmatched_thresholds_unchanged {F : Type} (fmt : F → List Char)
    (scan : List Char → Option (F × List Char)) (heap_ok : Bool) (reg : Registry F)
    (t : Telemetry F) (payload : List Char)
    (hroute : route (cstr payload) = Route.set_thresholds)
    (hk : sscanf_count scan (cstr payload) < 6) :
    (http_recv fmt scan heap_ok reg t (some payload)).registry.press_min_user
        = reg.press_min_user ∧
    (sscanf_count scan (cstr payload) < 5 →
      (http_recv fmt scan heap_ok reg t (some payload)).registry.press_max_user
        = reg.press_max_user) ∧
    (sscanf_count scan (cstr payload) < 4 →
      (http_recv fmt scan heap_ok reg t (some payload)).registry.hum_min_user
        = reg.hum_min_user) ∧
    (sscanf_count scan (cstr payload) < 3 →
      (http_recv fmt scan heap_ok reg t (some payload)).registry.hum_max_user
        = reg.hum_max_user) ∧
    (sscanf_count scan (cstr payload) < 2 →
      (http_recv fmt scan heap_ok reg t (some payload)).registry.temp_min_user
        = reg.temp_min_user) ∧
    (sscanf_count scan (cstr payload) < 1 →
      (http_recv fmt scan heap_ok reg t (some payload)).registry.temp_max_user
        = reg.temp_max_user) ∧
    (heap_ok = true →
      (http_recv fmt scan heap_ok reg t (some payload)).registry.to_list
        = sscanf scan (parse_format limites_format) (cstr payload) ++
            reg.to_list.drop (sscanf_count scan (cstr payload))) := by
  rw [http_recv_registry]
  unfold sscanf_count at hk ⊢
  cases heap_ok
  · simp
  · simp only [hroute, and_self, if_true, scan_thresholds]
    refine ⟨?_, ?_, ?_, ?_, ?_, ?_, ?_⟩
    · rw [store_threshold_args]
      exact List.getD_eq_default _ _ (by omega)
    · intro h
      rw [store_threshold_args]
      exact List.getD_eq_default _ _ (by omega)
    · intro h
      rw [store_threshold_args]
      exact List.getD_eq_default _ _ (by omega)
    · intro h
      rw [store_threshold_args]
      exact List.getD_eq_default _ _ (by omega)
    · intro h
      rw [store_threshold_args]
      exact List.getD_eq_default _ _ (by omega)
    · intro h
      rw [store_threshold_args]
      exact List.getD_eq_default _ _ (by omega)
    · intro _
      exact store_threshold_args_to_list reg _ (by omega)

/-- Claim C2 (witness of the amended claim). The query without `temp_min`,
applied to the default thresholds: one value is converted, `temp_max` is set
to 40 and the five fields after it keep their defaults. -/
theorem unmatched_thresholds_unchanged_witness :
    route (cstr req_missing_temp_min) = Route.set_thresholds ∧
    sscanf_count scan_f (cstr req_missing_temp_min) = 1 ∧
    (http_recv fmt_2f scan_f true default_registry initial_telemetry
        (some req_missing_temp_min)).registry.press_min_user
      = default_registry.press_min_user ∧
    (http_recv fmt_2f scan_f true default_registry initial_telemetry
        (some req_missing_temp_min)).registry.temp_min_user
      = default_registry.temp_min_user ∧
    (http_recv fmt_2f scan_f true default_registry initial_telemetry
        (some req_missing_temp_min)).registry.to_list
      = [ Float32.of_ratio false 40 1, default_registry.temp_min_user,
          default_registry.hum_max_user, default_registry.hum_min_user,
          default_registry.press_max_user, default_registry.press_min_user ] :=
  have h := unmatched_thresholds_unchanged fmt_2f scan_f true default_registry
    initial_telemetry req_missing_temp_min (by decide) (by decide)
  ⟨by decide, by decide, h.1, h.2.2.2.2.1 (by decide),
   (h.2.2.2.2.2.2 rfl).trans (by decide)⟩

/-- Claim C2 (counterexample). The query of the claim,
`temp_max=40.0&hum_max=80.0&hum_min=30.0&press_max=105.0&press_min=95.0`, is
routed to Set-Thresholds and does not match the pattern (one value is
converted), yet it changes `temp_max` from its default 35 to 40: the registry
is not left unchanged. -/
theorem missing_parameter_changes_temp_max :
    route (cstr req_missing_temp_min) = Route.set_thresholds ∧
    sscanf_count scan_f (cstr req_missing_temp_min) = 1 ∧
    default_registry.temp_max_user = Float32.of_ratio false 35 1 ∧
    (http_recv fmt_2f scan_f true default_registry initial_telemetry
        (some req_missing_temp_min)).registry.temp_max_user
      = Float32.of_ratio false 40 1 ∧
    (http_recv fmt_2f scan_f true default_registry initial_telemetry
        (some req_missing_temp_min)).registry ≠ default_registry := by
  decide

/-! ## Redirect -/

/-- Claim C8. For every request routed to Set-Thresholds (allocation
succeeding), whatever the query and whatever `sscanf` converts, the response
is the 35 bytes `HTTP/1.1 302 Found\r\nLocation: /\r\n\r\n`: the connection
state holds them with `len = 35` and `sent = 0`, and they are written in one
`tcp_write` of 35 bytes. -/
theorem set_thresholds_redirect {F : Type} (fmt : F → List Char)
    (scan : List Char → Option (F × List Char)) (reg : Registry F)
    (t : Telemetry F) (payload : List Char)
    (hroute : route (cstr payload) = Route.set_thresholds) :
    (http_recv fmt scan true reg t (some payload)).hs =
      some { response := "HTTP/1.1 302 Found\r\nLocation: /\r\n\r\n".toList
             len := 35
             sent := 0 } ∧
    "HTTP/1.1 302 Found\r\nLocation: /\r\n\r\n".toList.length = 35 ∧
    (http_recv fmt scan true reg t (some payload)).actions =
      [ Action.malloc, Action.tcp_arg, Action.tcp_sent,
        Action.tcp_write "HTTP/1.1 302 Found\r\nLocation: /\r\n\r\n".toList 0 35,
        Action.tcp_output, Action.pbuf_free ] ∧
    (http_recv fmt scan true reg t (some payload)).ret = err_t.ERR_OK := by
  rw [http_recv_set_thresholds fmt scan reg t payload hroute]
  have hout : snprintf 4096 redir_hdr
      = ("HTTP/1.1 302 Found\r\nLocation: /\r\n\r\n".toList, 35) := by decide
  have hu : u16 35 = 35 := by decide
  rw [hout]
  refine ⟨rfl, by decide, ?_, rfl⟩
  simp only [send_actions, hu, List.cons_append, List.nil_append]

/-- Claim C8 (witness). The request whose query lacks `temp_min` is answered
with the 35-byte redirect. -/
theorem set_thresholds_redirect_witness :
    route (cstr req_missing_temp_min) = Route.set_thresholds ∧
    (http_recv fmt_2f scan_f true default_registry initial_telemetry
        (some req_missing_temp_min)).hs =
      some { response := "HTTP/1.1 302 Found\r\nLocation: /\r\n\r\n".toList
             len := 35
             sent := 0 } :=
  ⟨by decide,
   (set_thresholds_redirect fmt_2f scan_f default_registry initial_telemetry
      req_missing_temp_min (by decide)).1⟩

/-! ## Serialisation lemmas -/

theorem take_append_take {α : Type} (c : Nat) (s piece : List α) :
    s.take c ++ piece.take (c + 1 - (s.take c).length - 1) = (s ++ piece).take c := by
  rw [List.take_append_eq_append_take, List.length_take]
  by_cases h : s.length ≤ c
  · rw [Nat.min_eq_right h]
    congr 2
    omega
  · have h1 : min c s.length = c := Nat.min_eq_left (by omega)
    rw [h1]
    have h2 : c + 1 - c - 1 = 0 := by omega
    have h3 : c - s.length = 0 := by omega
    rw [h2, h3]

theorem append_value_take {F : Type} (fmt : F → List Char) (s : List Char) (x : F) (i : Nat) :
    append_value fmt (s.take 511) x i = (s ++ value_text fmt x i).take 511 := by
  unfold append_value snprintf
  exact take_append_take 511 s (value_text fmt x i)

theorem loop_text_succ {F : Type} (fmt : F → List Char) (t : Telemetry F)
    (buf : Fin MAX_BUFFER_SIZE → F) (n : Nat) :
    loop_text fmt t buf (n + 1)
      = loop_text fmt t buf n ++ value_text fmt (buf (read_index t n)) n := by
  simp [loop_text, List.range_succ]

/-- After `n` iterations each string is the first 511 characters of what the
iterations would have appended in full. -/
theorem serialize_first_n {F : Type} (fmt : F → List Char) (t : Telemetry F) (n : Nat) :
    (List.range n).foldl (serialize_step fmt t) ⟨[], [], []⟩ =
      { temp_str := (loop_text fmt t t.temp_buffer n).take 511
        hum_str := (loop_text fmt t t.hum_buffer n).take 511
        press_str := (loop_text fmt t t.press_buffer n).take 511 } := by
  induction n with
  | zero => rfl
  | succ n ih =>
    rw [List.range_succ, List.foldl_append, ih]
    simp only [List.foldl_cons, List.foldl_nil, serialize_step, read_sample,
      append_value_take, loop_text_succ]

theorem loop_text_twenty {F : Type} (fmt : F → List Char) (t : Telemetry F)
    (buf : Fin MAX_BUFFER_SIZE → F) :
    loop_text fmt t buf MAX_BUFFER_SIZE = comma_joined fmt (read_order t buf) := by
  have hr : List.range MAX_BUFFER_SIZE
      = [0, 1, 2, 3, 4, 5, 6, 7, 8, 9, 10, 11, 12, 13, 14, 15, 16, 17, 18, 19] := by decide
  simp only [loop_text, comma_joined, read_order, hr, value_text, List.map_cons, List.map_nil,
    List.flatten, List.intercalate, List.intersperse, MAX_BUFFER_SIZE]
  simp

theorem serialize_eq {F : Type} (fmt : F → List Char) (t : Telemetry F) :
    serialize fmt t =
      { temp_str := (comma_joined fmt (read_order t t.temp_buffer)).take 511
        hum_str := (comma_joined fmt (read_order t t.hum_buffer)).take 511
        press_str := (comma_joined fmt (read_order t t.press_buffer)).take 511 } := by
  unfold serialize
  rw [serialize_first_n, loop_text_twenty, loop_text_twenty, loop_text_twenty]

theorem serialize_lengths {F : Type} (fmt : F → List Char) (t : Telemetry F) :
    (serialize fmt t).temp_str.length ≤ 511 ∧
    (serialize fmt t).hum_str.length ≤ 511 ∧
    (serialize fmt t).press_str.length ≤ 511 := by
  rw [serialize_eq]
  exact ⟨List.length_take_le _ _, List.length_take_le _ _, List.length_take_le _ _⟩

theorem json_object_length (a b c : List Char) :
    (json_object a b c).length = 47 + a.length + b.length + c.length := by
  simp only [json_object, List.length_append]
  have h1 : "\x7b\"temperaturas\":[".toList.length = 17 := by decide
  have h2 : "],\"umidades\":[".toList.length = 14 := by decide
  have h3 : "],\"pressoes\":[".toList.length = 14 := by decide
  have h4 : "]\x7d".toList.length = 2 := by decide
  rw [h1, h2, h3, h4]
  omega

/-- The 2048-byte buffer never cuts the JSON text. -/
theorem json_payload_eq {F : Type} (fmt : F → List Char) (t : Telemetry F) :
    json_payload fmt t =
      json_object (serialize fmt t).temp_str (serialize fmt t).hum_str
        (serialize fmt t).press_str := by
  have hl := serialize_lengths fmt t
  have hlen := json_object_length (serialize fmt t).temp_str (serialize fmt t).hum_str
    (serialize fmt t).press_str
  unfold json_payload snprintf
  exact List.take_of_length_le (by unfold json_object at hlen; omega)

theorem json_payload_length {F : Type} (fmt : F → List Char) (t : Telemetry F) :
    (json_payload fmt t).length ≤ 1580 := by
  have hl := serialize_lengths fmt t
  rw [json_payload_eq, json_object_length]
  omega

theorem fmt_d_length (n : Nat) (h : n < 10000) : (fmt_d n).length ≤ 4 := by
  unfold fmt_d Nat.toDigits
  exact Nat.toDigitsCore_length 10 (by decide) (n + 1) n 4 (by simpa using h) (by decide)

/-- The complete text of the Get-Telemetry response. -/
theorem estado_text_length {F : Type} (fmt : F → List Char) (t : Telemetry F) :
    (estado_header_pre ++ fmt_d (json_payload fmt t).length ++ estado_header_post ++
      json_payload fmt t).length ≤ 1672 := by
  have hb := json_payload_length fmt t
  have hd := fmt_d_length (json_payload fmt t).length (by omega)
  have h1 : estado_header_pre.length = 65 := by decide
  have h2 : estado_header_post.length = 23 := by decide
  simp only [List.length_append, h1, h2]
  omega

/-- The 4096-byte buffer never cuts the response: it is stored whole, and
`hs->len` is its length. -/
theorem estado_response_eq {F : Type} (fmt : F → List Char) (t : Telemetry F) :
    estado_response fmt t =
      (estado_header_pre ++ fmt_d (json_payload fmt t).length ++ estado_header_post ++
          json_payload fmt t,
       (estado_header_pre ++ fmt_d (json_payload fmt t).length ++ estado_header_post).length
          + (json_payload fmt t).length) := by
  have hlen := estado_text_length fmt t
  unfold estado_response snprintf
  rw [List.take_of_length_le (by omega)]
  simp only [List.length_append]

theorem estado_response_len_lt {F : Type} (fmt : F → List Char) (t : Telemetry F) :
    (estado_response fmt t).2 < 4096 := by
  have hrl := estado_text_length fmt t
  rw [estado_response_eq]
  simp only [List.length_append] at hrl ⊢
  omega

/-! ## Decimal round trip -/

theorem digitChar_value (k : Nat) (hk : k < 10) :
    (Nat.digitChar k).toNat - '0'.toNat = k := by
  interval_cases k <;> decide

theorem digits_value_append (ds : List Char) (c : Char) :
    digits_value (ds ++ [c]) = 10 * digits_value ds + (c.toNat - '0'.toNat) := by
  simp [digits_value, List.foldl_append]

theorem toDigitsCore_append (fuel n : Nat) (ds : List Char) :
    Nat.toDigitsCore 10 fuel n ds = Nat.toDigitsCore 10 fuel n [] ++ ds := by
  induction fuel generalizing n ds with
  | zero => simp [Nat.toDigitsCore]
  | succ fuel ih =>
    simp only [Nat.toDigitsCore]
    split
    · simp
    · rw [ih (n / 10) (Nat.digitChar (n % 10) :: ds), ih (n / 10) [Nat.digitChar (n % 10)]]
      simp

theorem digits_value_toDigitsCore (fuel n : Nat) (h : n < fuel) :
    digits_value (Nat.toDigitsCore 10 fuel n []) = n := by
  induction fuel generalizing n with
  | zero => omega
  | succ fuel ih =>
    simp only [Nat.toDigitsCore]
    split
    · next h0 =>
      have hn : n < 10 := by
        by_contra hc
        have : 1 ≤ n / 10 := Nat.div_pos (by omega) (by decide)
        omega
      have hd := digitChar_value (n % 10) (Nat.mod_lt _ (by decide))
      have hv : digits_value [Nat.digitChar (n % 10)]
          = (Nat.digitChar (n % 10)).toNat - '0'.toNat := by
        simp [digits_value]
      rw [hv, hd]
      omega
    · next h0 =>
      rw [toDigitsCore_append, digits_value_append, ih (n / 10) (by omega),
        digitChar_value (n % 10) (Nat.mod_lt _ (by decide))]
      omega

/-- Reading back the `%d` output gives the number printed. -/
theorem digits_value_fmt_d (n : Nat) : digits_value (fmt_d n) = n :=
  digits_value_toDigitsCore (n + 1) n (Nat.lt_succ_self n)

/-! ## Get-Telemetry: buffers, framing, `Content-Length` -/

/-- Claim C6. Whatever the buffers hold and however long the formatted values
are, serialisation stays inside its fixed buffers: each of `temp_str`,
`hum_str`, `press_str` is at most 511 bytes; `json_payload` is the complete
JSON text (the 2048-byte buffer cuts nothing), so it starts with
`{"temperaturas":[`, contains `],"umidades":[` and `],"pressoes":[`, and ends
with `]}`; and the length recorded in the connection state is below 4096. -/
theorem telemetry_buffers_never_overflow {F : Type} (fmt : F → List Char)
    (scan : List Char → Option (F × List Char)) (reg : Registry F) (t : Telemetry F) :
    (serialize fmt t).temp_str.length ≤ 511 ∧
    (serialize fmt t).hum_str.length ≤ 511 ∧
    (serialize fmt t).press_str.length ≤ 511 ∧
    json_payload fmt t =
      "\x7b\"temperaturas\":[".toList ++ (serialize fmt t).temp_str ++
        "],\"umidades\":[".toList ++ (serialize fmt t).hum_str ++
        "],\"pressoes\":[".toList ++ (serialize fmt t).press_str ++ "]\x7d".toList ∧
    (json_payload fmt t).length < 2048 ∧
    "\x7b\"temperaturas\":[".toList <+: json_payload fmt t ∧
    "],\"umidades\":[".toList <:+: json_payload fmt t ∧
    "],\"pressoes\":[".toList <:+: json_payload fmt t ∧
    "]\x7d".toList <:+ json_payload fmt t ∧
    (estado_response fmt t).2 < 4096 ∧
    (∀ payload, route (cstr payload) = Route.get_telemetry →
      ∃ hs, (http_recv fmt scan true reg t (some payload)).hs = some hs ∧
        hs.len < 4096 ∧ hs.len = hs.response.length ∧
        json_payload fmt t <:+ hs.response) := by
  have hl := serialize_lengths fmt t
  have hj := json_payload_eq fmt t
  have hjl := json_payload_length fmt t
  have hr := estado_response_eq fmt t
  have hlen2 := estado_response_len_lt fmt t
  refine ⟨hl.1, hl.2.1, hl.2.2, hj, by omega, ?_, ?_, ?_, ?_, hlen2, ?_⟩
  · rw [hj]
    exact ⟨(serialize fmt t).temp_str ++ "],\"umidades\":[".toList ++
        (serialize fmt t).hum_str ++ "],\"pressoes\":[".toList ++
        (serialize fmt t).press_str ++ "]\x7d".toList,
      by simp only [json_object, List.append_assoc]⟩
  · rw [hj]
    exact ⟨"\x7b\"temperaturas\":[".toList ++ (serialize fmt t).temp_str,
      (serialize fmt t).hum_str ++ "],\"pressoes\":[".toList ++ (serialize fmt t).press_str
        ++ "]\x7d".toList, by simp only [json_object, List.append_assoc]⟩
  · rw [hj]
    exact ⟨"\x7b\"temperaturas\":[".toList ++ (serialize fmt t).temp_str ++
        "],\"umidades\":[".toList ++ (serialize fmt t).hum_str,
      (serialize fmt t).press_str ++ "]\x7d".toList,
      by simp only [json_object, List.append_assoc]⟩
  · rw [hj]
    exact ⟨_, rfl⟩
  · intro payload hroute
    rw [http_recv_get_telemetry fmt scan reg t payload hroute]
    refine ⟨_, rfl, hlen2, ?_, ?_⟩
    · rw [hr]
      simp only [List.length_append]
    · rw [hr]
      exact ⟨_, rfl⟩

/-- A `tcp_write` of a whole string hands over exactly that string. -/
theorem bytes_whole (src : List Char) (h : src.length < 65536) :
    (Action.tcp_write src 0 (u16 src.length)).bytes = src := by
  simp [Action.bytes, u16, Nat.mod_eq_of_lt h]

/-- The default branch writes the header and the seven fragments, in order. -/
theorem written_bytes_dashboard :
    written_bytes (dashboard_actions ++ [Action.pbuf_free]) = dashboard_bytes := by
  simp only [written_bytes, dashboard_actions, List.map_cons, List.map_nil, List.cons_append,
    List.nil_append, List.flatten,
    bytes_whole dashboard_header (by decide), bytes_whole HTML_PART1 (by decide),
    bytes_whole HTML_PART2 (by decide), bytes_whole HTML_PART3 (by decide),
    bytes_whole HTML_PART4 (by decide), bytes_whole HTML_PART5 (by decide),
    bytes_whole HTML_PART6 (by decide), bytes_whole HTML_PART7 (by decide)]
  simp [Action.bytes, dashboard_bytes]

/-- The Set-Thresholds branch writes the redirect. -/
theorem written_bytes_redirect :
    written_bytes (Action.malloc ::
      send_actions { response := (snprintf 4096 redir_hdr).1
                     len := (snprintf 4096 redir_hdr).2, sent := 0 } ++
        [Action.pbuf_free]) = redir_hdr := by
  decide

/-- Claim C7. The Get-Telemetry response is the header text, the decimal
`Content-Length` value, the rest of the header ending in the blank line, and
the body; the value printed reads back as exactly the byte length of the
body, and the length recorded in the connection state is header length plus
body length.  Neither the bytes written for a Set-Thresholds request nor
those written for a Get-Dashboard request contain `Content-Length`. -/
theorem content_length_is_body_length {F : Type} (fmt : F → List Char)
    (scan : List Char → Option (F × List Char)) (reg : Registry F) (t : Telemetry F) :
    (estado_response fmt t).1 =
      "HTTP/1.1 200 OK\r\nContent-Type: application/json\r\nContent-Length: ".toList ++
        fmt_d (json_payload fmt t).length ++
        "\r\nConnection: close\r\n\r\n".toList ++ json_payload fmt t ∧
    digits_value (fmt_d (json_payload fmt t).length) = (json_payload fmt t).length ∧
    (estado_response fmt t).2 =
      ("HTTP/1.1 200 OK\r\nContent-Type: application/json\r\nContent-Length: ".toList ++
        fmt_d (json_payload fmt t).length ++
        "\r\nConnection: close\r\n\r\n".toList).length + (json_payload fmt t).length ∧
    (∀ payload, route (cstr payload) = Route.get_telemetry →
      (http_recv fmt scan true reg t (some payload)).hs =
        some { response := (estado_response fmt t).1
               len := (estado_response fmt t).2
               sent := 0 }) ∧
    (∀ payload, route (cstr payload) = Route.set_thresholds →
      ¬ "Content-Length".toList <:+:
          written_bytes (http_recv fmt scan true reg t (some payload)).actions) ∧
    (∀ heap_ok payload, route (cstr payload) = Route.get_dashboard →
      ¬ "Content-Length".toList <:+:
          written_bytes (http_recv fmt scan heap_ok reg t (some payload)).actions) := by
  have hr := estado_response_eq fmt t
  have hpre : estado_header_pre
      = "HTTP/1.1 200 OK\r\nContent-Type: application/json\r\nContent-Length: ".toList := by
    decide
  have hpost : estado_header_post = "\r\nConnection: close\r\n\r\n".toList := by decide
  rw [hpre, hpost] at hr
  refine ⟨by rw [hr], digits_value_fmt_d _, by rw [hr], ?_, ?_, ?_⟩
  · intro payload hroute
    rw [http_recv_get_telemetry fmt scan reg t payload hroute]
  · intro payload hroute
    rw [http_recv_set_thresholds fmt scan reg t payload hroute]
    show ¬ "Content-Length".toList <:+: written_bytes (Action.malloc ::
      send_actions { response := (snprintf 4096 redir_hdr).1
                     len := (snprintf 4096 redir_hdr).2, sent := 0 } ++
        [Action.pbuf_free])
    rw [written_bytes_redirect, ← strstr_isSome_iff]
    decide
  · intro heap_ok payload hroute
    rw [http_recv_get_dashboard fmt scan heap_ok reg t payload hroute]
    show ¬ "Content-Length".toList <:+: written_bytes (dashboard_actions ++ [Action.pbuf_free])
    rw [written_bytes_dashboard, ← strstr_isSome_iff]
    decide

/-! ## Get-Telemetry: the body -/

/-- Claim C5 (as amended). For every content of the three buffers and every
write index, the body is `{"temperaturas":[T'],"umidades":[H'],"pressoes":[P']}`
where `T'`, `H'`, `P'` are the first 511 bytes of `T`, `H`, `P`, and `T`, `H`,
`P` are the 20 values of the buffer, the `i`-th being slot
`(buffer_index + i) % 20`, each formatted with `%.2f` and separated by single
commas without a trailing comma.  Whenever `T`, `H` and `P` are at most 511
bytes long the body therefore is exactly
`{"temperaturas":[T],"umidades":[H],"pressoes":[P]}`. -/
theorem telemetry_body {F : Type} (fmt : F → List Char) (t : Telemetry F) :
    json_payload fmt t =
      json_object ((comma_joined fmt (read_order t t.temp_buffer)).take 511)
        ((comma_joined fmt (read_order t t.hum_buffer)).take 511)
        ((comma_joined fmt (read_order t t.press_buffer)).take 511) ∧
    ((comma_joined fmt (read_order t t.temp_buffer)).length ≤ 511 →
     (comma_joined fmt (read_order t t.hum_buffer)).length ≤ 511 →
     (comma_joined fmt (read_order t t.press_buffer)).length ≤ 511 →
      json_payload fmt t =
        json_object (comma_joined fmt (read_order t t.temp_buffer))
          (comma_joined fmt (read_order t t.hum_buffer))
          (comma_joined fmt (read_order t t.press_buffer))) := by
  have h : json_payload fmt t =
      json_object ((comma_joined fmt (read_order t t.temp_buffer)).take 511)
        ((comma_joined fmt (read_order t t.hum_buffer)).take 511)
        ((comma_joined fmt (read_order t t.press_buffer)).take 511) := by
    rw [json_payload_eq, serialize_eq]
  refine ⟨h, ?_⟩
  intro hT hH hP
  rw [h, List.take_of_length_le hT, List.take_of_length_le hH, List.take_of_length_le hP]

/-- Claim C5 (witness). On the buffers as they are at program start, never
written, each array is twenty times `0.00`. -/
theorem telemetry_body_never_written :
    (comma_joined fmt_2f (read_order initial_telemetry initial_telemetry.temp_buffer)).length
      ≤ 511 ∧
    json_payload fmt_2f initial_telemetry =
      String.toList
        ("\x7b\"temperaturas\":[0.00,0.00,0.00,0.00,0.00,0.00,0.00,0.00,0.00,0.00," ++
         "0.00,0.00,0.00,0.00,0.00,0.00,0.00,0.00,0.00,0.00]," ++
         "\"umidades\":[0.00,0.00,0.00,0.00,0.00,0.00,0.00,0.00,0.00,0.00," ++
         "0.00,0.00,0.00,0.00,0.00,0.00,0.00,0.00,0.00,0.00]," ++
         "\"pressoes\":[0.00,0.00,0.00,0.00,0.00,0.00,0.00,0.00,0.00,0.00," ++
         "0.00,0.00,0.00,0.00,0.00,0.00,0.00,0.00,0.00,0.00]\x7d") :=
  ⟨by decide,
   ((telemetry_body fmt_2f initial_telemetry).2 (by decide) (by decide) (by decide)).trans
     (by decide)⟩

/-- Claim C5 (counterexample). With `1e38f` in every temperature slot the 20
formatted values and their commas take 839 bytes; `temp_str` holds the first
511 of them, so the temperature array of the body is cut in the middle of a
number and the body is not the one the claim describes. -/
theorem telemetry_body_truncated :
    fmt_2f Float32.e38 = "99999996802856924650656260769173209088.00".toList ∧
    (comma_joined fmt_2f (read_order huge_telemetry huge_telemetry.temp_buffer)).length = 839 ∧
    (serialize fmt_2f huge_telemetry).temp_str.length = 511 ∧
    json_payload fmt_2f huge_telemetry ≠
      json_object (comma_joined fmt_2f (read_order huge_telemetry huge_telemetry.temp_buffer))
        (comma_joined fmt_2f (read_order huge_telemetry huge_telemetry.hum_buffer))
        (comma_joined fmt_2f (read_order huge_telemetry huge_telemetry.press_buffer)) := by
  refine ⟨by decide, by decide, by decide, ?_⟩
  intro h
  have hlen := congrArg List.length h
  revert hlen
  decide

/-! ## Send completion (`http_sent`) -/

theorem http_sent_open (hs : http_state) (len : Nat)
    (hL : hs.len < 4096) (h : hs.sent + len < hs.len) :
    http_sent hs len =
      (some { hs with sent := hs.sent + len },
       [Action.tcp_write hs.response (hs.sent + len) (hs.len - (hs.sent + len))]) := by
  have h1 : (hs.sent + len) % SIZE_MAX_PLUS_ONE = hs.sent + len :=
    Nat.mod_eq_of_lt (by simp only [SIZE_MAX_PLUS_ONE]; omega)
  have h2 : (hs.len - (hs.sent + len)) % 65536 = hs.len - (hs.sent + len) :=
    Nat.mod_eq_of_lt (by omega)
  simp only [http_sent, h1, h2, ge_iff_le]
  rw [if_neg (by omega)]

theorem http_sent_done (hs : http_state) (len : Nat)
    (hL : hs.len < 4096) (hlen : len < 65536) (hs0 : hs.sent < hs.len)
    (h : hs.len ≤ hs.sent + len) :
    http_sent hs len = (none, [Action.tcp_close, Action.free]) := by
  have h1 : (hs.sent + len) % SIZE_MAX_PLUS_ONE = hs.sent + len :=
    Nat.mod_eq_of_lt (by simp only [SIZE_MAX_PLUS_ONE]; omega)
  simp only [http_sent, h1, ge_iff_le]
  rw [if_pos h]

/-- While the acknowledged total stays below `len` the connection stays open,
`sent` is the total, and nothing is closed or freed. -/
theorem foldl_notify_open (lens : List Nat) :
    ∀ (hs : http_state) (acc : List Action), hs.len < 4096 →
      hs.sent + lens.sum < hs.len →
      ∃ acc2, lens.foldl notify (some (some hs, acc))
          = some (some { hs with sent := hs.sent + lens.sum }, acc2) ∧
        acc2.count Action.tcp_close = acc.count Action.tcp_close ∧
        acc2.count Action.free = acc.count Action.free := by
  induction lens with
  | nil => intro hs acc _ _; exact ⟨acc, by simp, rfl, rfl⟩
  | cons l ls ih =>
    intro hs acc hL h
    rw [List.sum_cons] at h
    have hstep := http_sent_open hs l hL (by omega)
    have hn : notify (some (some hs, acc)) l =
        some (some { hs with sent := hs.sent + l },
         acc ++ [Action.tcp_write hs.response (hs.sent + l) (hs.len - (hs.sent + l))]) := by
      simp only [notify, hstep]
    obtain ⟨acc2, h1, h2, h3⟩ := ih { hs with sent := hs.sent + l }
      (acc ++ [Action.tcp_write hs.response (hs.sent + l) (hs.len - (hs.sent + l))])
      hL (by simp only; omega)
    refine ⟨acc2, ?_, ?_, ?_⟩
    · rw [List.foldl_cons, hn, h1, List.sum_cons, Nat.add_assoc]
    · rw [h2]; simp [List.count_append]
    · rw [h3]; simp [List.count_append]

/-- A connection state created by `http_recv` starts with `sent = 0` and a
length below 4096. -/
theorem dispatched_state {F : Type} (fmt : F → List Char)
    (scan : List Char → Option (F × List Char)) (heap_ok : Bool) (reg : Registry F)
    (t : Telemetry F) (payload : List Char) (hs : http_state)
    (h : (http_recv fmt scan heap_ok reg t (some payload)).hs = some hs) :
    hs.sent = 0 ∧ hs.len < 4096 ∧ route (cstr payload) ≠ Route.get_dashboard ∧
      heap_ok = true := by
  cases hr : route (cstr payload)
  · cases heap_ok
    · rw [http_recv_no_memory fmt scan reg t payload (by simp [hr])] at h; simp at h
    · rw [http_recv_set_thresholds fmt scan reg t payload hr] at h
      simp only [Option.some.injEq] at h
      subst h
      refine ⟨rfl, ?_, by simp, rfl⟩
      decide
  · cases heap_ok
    · rw [http_recv_no_memory fmt scan reg t payload (by simp [hr])] at h; simp at h
    · rw [http_recv_get_telemetry fmt scan reg t payload hr] at h
      simp only [Option.some.injEq] at h
      subst h
      exact ⟨rfl, estado_response_len_lt fmt t, by simp, rfl⟩
  · rw [http_recv_get_dashboard fmt scan heap_ok reg t payload hr] at h; simp at h

/-- Claim C9 (as amended). For a connection dispatched by `http_recv` (a
Set-Thresholds or Get-Telemetry response of length `L = hs.len`) and
notifications `pre` whose byte counts sum to less than `L`: every notification
has added its count, so the connection is still open with `sent` equal to that
sum, and nothing has been closed or freed.  The next notification, of `len`
bytes, adds `len`: if the new total is still below `L` the handler writes
exactly the unsent rest (offset = total, length = `L` - total) and the
connection stays open; otherwise, that is at the first notification at which
the total reaches or exceeds `L`, it calls `tcp_close` and `free`, once each.
Nothing is stated about notifications after that one. -/
theorem flush_until_acknowledged {F : Type} (fmt : F → List Char)
    (scan : List Char → Option (F × List Char)) (heap_ok : Bool) (reg : Registry F)
    (t : Telemetry F) (payload : List Char) (hs : http_state)
    (pre : List Nat) (len : Nat)
    (hdisp : (http_recv fmt scan heap_ok reg t (some payload)).hs = some hs)
    (hlen : len < 65536)
    (hopen : pre.sum < hs.len) :
    ∃ acc, run_acks hs pre = some (some { hs with sent := pre.sum }, acc) ∧
      acc.count Action.tcp_close = 0 ∧
      acc.count Action.free = 0 ∧
      (pre.sum + len < hs.len →
        run_acks hs (pre ++ [len]) =
          some (some { hs with sent := pre.sum + len },
            acc ++ [Action.tcp_write hs.response (pre.sum + len)
                      (hs.len - (pre.sum + len))])) ∧
      (hs.len ≤ pre.sum + len →
        run_acks hs (pre ++ [len]) =
          some (none, acc ++ [Action.tcp_close, Action.free])) := by
  obtain ⟨h0, hL, _, _⟩ := dispatched_state fmt scan heap_ok reg t payload hs hdisp
  obtain ⟨acc, hA, hc, hf⟩ := foldl_notify_open pre hs [] hL (by omega)
  rw [h0, Nat.zero_add] at hA
  have hrun : run_acks hs pre = some (some { hs with sent := pre.sum }, acc) := hA
  have hstep : run_acks hs (pre ++ [len]) = notify (run_acks hs pre) len := by
    simp only [run_acks, List.foldl_append, List.foldl_cons, List.foldl_nil]
  refine ⟨acc, hrun, by simpa using hc, by simpa using hf, ?_, ?_⟩
  · intro h
    have hs1 := http_sent_open { hs with sent := pre.sum } len hL (by simpa using h)
    rw [hstep, hrun]
    simp only [notify, hs1]
  · intro h
    have hs1 := http_sent_done { hs with sent := pre.sum } len hL hlen hopen (by simpa using h)
    rw [hstep, hrun]
    simp only [notify, hs1]

/-- Claim C9 (witness). The 35-byte redirect acknowledged as 20 and then 15
bytes: open with `sent = 20` after the first notification, which re-issues
the last 15 bytes; closed by the second. -/
theorem flush_until_acknowledged_witness :
    (http_recv fmt_2f scan_f true default_registry initial_telemetry
        (some req_six_params)).hs = some redirect_state ∧
    run_acks redirect_state [20] =
      some (some { redirect_state with sent := 20 }, [Action.tcp_write redir_hdr 20 15]) ∧
    run_acks redirect_state [20, 15] =
      some (none, [Action.tcp_write redir_hdr 20 15, Action.tcp_close, Action.free]) := by
  obtain ⟨acc, h1, _, _, _, h5⟩ :=
    flush_until_acknowledged fmt_2f scan_f true default_registry initial_telemetry
      req_six_params redirect_state [20] 15 (by decide) (by decide) (by decide)
  have hv : run_acks redirect_state [20] =
      some (some { redirect_state with sent := 20 }, [Action.tcp_write redir_hdr 20 15]) := by
    decide
  have hacc : acc = [Action.tcp_write redir_hdr 20 15] := by
    have := h1.symm.trans hv
    simp only [Option.some.injEq, Prod.mk.injEq] at this
    exact this.2
  subst hacc
  exact ⟨by decide, hv, h5 (by decide)⟩

/-- Claim C9 (counterexample). The 35-byte redirect acknowledged as 20 and then
30 bytes (the second `tcp_write`, of the last 15 bytes, queued them a second
time): the connection is closed by the second notification, at a total of 50,
and at no notification is the total equal to 35. -/
theorem closes_past_response_length :
    (http_recv fmt_2f scan_f true default_registry initial_telemetry
        (some req_six_params)).hs = some redirect_state ∧
    redirect_state.len = 35 ∧
    run_acks redirect_state [20] =
      some (some { redirect_state with sent := 20 }, [Action.tcp_write redir_hdr 20 15]) ∧
    run_acks redirect_state [20, 30] =
      some (none, [Action.tcp_write redir_hdr 20 15, Action.tcp_close, Action.free]) ∧
    [20].sum ≠ redirect_state.len ∧ [20, 30].sum ≠ redirect_state.len := by
  decide

/-! ## Buffer life cycle -/

/-- The Set-Thresholds and Get-Telemetry branches (the allocation succeeding)
allocate one state object, attach it to the connection and register
`http_sent` once, and close and free nothing themselves. -/
theorem dispatch_allocates_once {F : Type} (fmt : F → List Char)
    (scan : List Char → Option (F × List Char)) (reg : Registry F)
    (t : Telemetry F) (payload : List Char)
    (hroute : route (cstr payload) ≠ Route.get_dashboard) :
    ∃ hs, (http_recv fmt scan true reg t (some payload)).hs = some hs ∧
      (http_recv fmt scan true reg t (some payload)).actions.count Action.malloc = 1 ∧
      (http_recv fmt scan true reg t (some payload)).actions.count Action.tcp_arg = 1 ∧
      (http_recv fmt scan true reg t (some payload)).actions.count Action.tcp_sent = 1 ∧
      (http_recv fmt scan true reg t (some payload)).actions.count Action.free = 0 ∧
      (http_recv fmt scan true reg t (some payload)).actions.count Action.tcp_close = 0 := by
  cases hr : route (cstr payload)
  · refine ⟨_, by rw [http_recv_set_thresholds fmt scan reg t payload hr], ?_, ?_, ?_, ?_,
      ?_⟩ <;>
    · rw [http_recv_set_thresholds fmt scan reg t payload hr]
      simp [send_actions]
  · refine ⟨_, by rw [http_recv_get_telemetry fmt scan reg t payload hr], ?_, ?_, ?_, ?_,
      ?_⟩ <;>
    · rw [http_recv_get_telemetry fmt scan reg t payload hr]
      simp [send_actions]
  · exact absurd hr hroute

/-- The default branch, for every request routed to it: no state object, no
`malloc`, no `tcp_arg`, no `tcp_sent`, no `tcp_close`, no `free`. -/
theorem dashboard_branch_calls {F : Type} (fmt : F → List Char)
    (scan : List Char → Option (F × List Char)) (heap_ok : Bool) (reg : Registry F)
    (t : Telemetry F) (payload : List Char)
    (hroute : route (cstr payload) = Route.get_dashboard) :
    (http_recv fmt scan heap_ok reg t (some payload)).hs = none ∧
    (http_recv fmt scan heap_ok reg t (some payload)).actions.count Action.malloc = 0 ∧
    (http_recv fmt scan heap_ok reg t (some payload)).actions.count Action.tcp_arg = 0 ∧
    (http_recv fmt scan heap_ok reg t (some payload)).actions.count Action.tcp_sent = 0 ∧
    (http_recv fmt scan heap_ok reg t (some payload)).actions.count Action.tcp_close = 0 ∧
    (http_recv fmt scan heap_ok reg t (some payload)).actions.count Action.free = 0 := by
  rw [http_recv_get_dashboard fmt scan heap_ok reg t payload hroute]
  refine ⟨rfl, ?_, ?_, ?_, ?_, ?_⟩ <;> simp [dashboard_actions]

/-- Claim C10 (the code at the failing input). The request `GET / HTTP/1.1`
is routed to Get-Dashboard.  Its response announces `Connection: close`, but
the branch allocates no state object, attaches none, registers no
send-completion handler and never calls `tcp_close`: the life cycle the claim
describes does not start.  The sibling branch does it: the request with six
parameters gets one `malloc` and one `tcp_sent`, and the acknowledgement of
its 35 bytes closes the connection and frees the object. -/
theorem dashboard_allocates_nothing :
    route (cstr req_dashboard) = Route.get_dashboard ∧
    "Connection: close".toList <:+:
      written_bytes (http_recv fmt_2f scan_f true default_registry initial_telemetry
        (some req_dashboard)).actions ∧
    (http_recv fmt_2f scan_f true default_registry initial_telemetry
        (some req_dashboard)).hs = none ∧
    (http_recv fmt_2f scan_f true default_registry initial_telemetry
        (some req_dashboard)).actions.count Action.malloc = 0 ∧
    (http_recv fmt_2f scan_f true default_registry initial_telemetry
        (some req_dashboard)).actions.count Action.tcp_sent = 0 ∧
    (http_recv fmt_2f scan_f true default_registry initial_telemetry
        (some req_dashboard)).actions.count Action.tcp_close = 0 ∧
    (http_recv fmt_2f scan_f true default_registry initial_telemetry
        (some req_six_params)).actions.count Action.malloc = 1 ∧
    (http_recv fmt_2f scan_f true default_registry initial_telemetry
        (some req_six_params)).actions.count Action.tcp_sent = 1 ∧
    run_acks redirect_state [35] = some (none, [Action.tcp_close, Action.free]) := by
  have hr : route (cstr req_dashboard) = Route.get_dashboard := by decide
  have hd := dashboard_branch_calls fmt_2f scan_f true default_registry initial_telemetry
    req_dashboard hr
  have hs6 : route (cstr req_six_params) ≠ Route.get_dashboard := by decide
  obtain ⟨_, _, hm, _, hts, _, _⟩ := dispatch_allocates_once fmt_2f scan_f default_registry
    initial_telemetry req_six_params hs6
  refine ⟨hr, ?_, hd.1, hd.2.1, hd.2.2.2.1, hd.2.2.2.2.1, hm, hts, by decide⟩
  rw [http_recv_get_dashboard fmt_2f scan_f true default_registry initial_telemetry
    req_dashboard hr]
  show "Connection: close".toList <:+: written_bytes (dashboard_actions ++ [Action.pbuf_free])
  rw [written_bytes_dashboard, ← strstr_isSome_iff]
  decide

/-! ## The `%f` conversion on decimal numbers -/

theorem isdigit_ne {c x : Char} (hc : isdigit c = true) (hx : isdigit x = false) : c ≠ x := by
  intro h
  rw [h, hx] at hc
  exact Bool.noConfusion hc

theorem ends_number_head {rest : List Char} (h : ends_number rest) (c : Char)
    (hc : rest.head? = some c) : isdigit c = false ∧ c ≠ '.' := by
  have := h c hc
  simp only [Bool.or_eq_false_iff, Char.isAlphanum, beq_eq_false_iff_ne, ne_eq] at this
  exact ⟨this.1.2, this.2⟩

theorem takeWhile_digits (ds r : List Char) (hds : ∀ c ∈ ds, isdigit c = true)
    (hr : ∀ c, r.head? = some c → isdigit c = false) :
    (ds ++ r).takeWhile isdigit = ds ∧ (ds ++ r).dropWhile isdigit = r := by
  induction ds with
  | nil =>
    cases r with
    | nil => simp
    | cons x r =>
      have hx := hr x rfl
      simp [List.takeWhile_cons, List.dropWhile_cons, hx]
  | cons d ds ih =>
    have hd := hds d (List.mem_cons_self _ _)
    have := ih (fun c hc => hds c (List.mem_cons_of_mem _ hc))
    simp [List.takeWhile_cons, List.dropWhile_cons, hd, this.1, this.2]

theorem dropWhile_isspace_cons (c : Char) (l : List Char) (hc : isspace c = false) :
    (c :: l).dropWhile isspace = c :: l := by
  simp [List.dropWhile_cons, hc]

theorem isspace_of_isdigit {c : Char} (hc : isdigit c = true) : isspace c = false := by
  by_contra h
  have hs : isspace c = true := by simpa using h
  simp only [isspace, Bool.or_eq_true, beq_iff_eq] at hs
  rcases hs with ((((h | h) | h) | h) | h) | h <;> (subst h; revert hc; decide)

/-- On the text of a well-formed decimal number followed by input that does
not continue it, the lexer returns the number and that input. -/
theorem lex_decimal_text (d : Decimal) (r : List Char) (hd : d.well_formed)
    (hr : ends_number r) : lex_decimal (d.text ++ r) = some (d, r) := by
  obtain ⟨sgn, ip, fo⟩ := d
  obtain ⟨hsgn, hip, hfp, hne⟩ := hd
  simp only at hsgn hip hfp hne
  -- the input behind the integer digits
  have htail : ∃ tl : List Char,
      tl = frac_text fo ++ r ∧
      (∀ c, tl.head? = some c → isdigit c = false) ∧
      (if tl.head? = some '.' then some ((tl.drop 1).takeWhile isdigit) else none) = fo ∧
      (if tl.head? = some '.' then (tl.drop 1).dropWhile isdigit else tl) = r := by
    refine ⟨_, rfl, ?_, ?_, ?_⟩
    · cases fo with
      | none => intro c hc; exact (ends_number_head hr c (by simpa [frac_text] using hc)).1
      | some fs =>
        intro c hc
        simp only [frac_text, List.cons_append, List.head?_cons, Option.some.injEq] at hc
        subst hc
        decide
    · cases fo with
      | none =>
        have : ¬ r.head? = some '.' := fun h => (ends_number_head hr _ h).2 rfl
        simp [frac_text, this]
      | some fs =>
        have hfs := takeWhile_digits fs r (by simpa using hfp)
          (fun c hc => (ends_number_head hr c hc).1)
        simp [frac_text, hfs.1]
    · cases fo with
      | none =>
        have : ¬ r.head? = some '.' := fun h => (ends_number_head hr _ h).2 rfl
        simp [frac_text, this]
      | some fs =>
        have hfs := takeWhile_digits fs r (by simpa using hfp)
          (fun c hc => (ends_number_head hr c hc).1)
        simp [frac_text, hfs.2]
  obtain ⟨tl, htl, htl_head, htl_frac, htl_rest⟩ := htail
  have hbody := takeWhile_digits ip tl hip htl_head
  -- the first character behind the sign is a digit or the point
  have hX : ∃ x xs, ip ++ tl = x :: xs ∧ isspace x = false ∧ x ≠ '-' ∧ x ≠ '+' := by
    cases ip with
    | nil =>
      cases fo with
      | none => simp at hne
      | some fs =>
        refine ⟨'.', fs ++ r, by simp [htl, frac_text], by decide, by decide, by decide⟩
    | cons i ip =>
      have hi : isdigit i = true := hip i (List.mem_cons_self _ _)
      exact ⟨i, ip ++ tl, rfl, isspace_of_isdigit hi, isdigit_ne hi (by decide),
        isdigit_ne hi (by decide)⟩
  obtain ⟨x, xs, hx, hxs, hxm, hxp⟩ := hX
  have htext : Decimal.text ⟨sgn, ip, fo⟩ ++ r = sgn ++ (ip ++ tl) := by
    simp only [Decimal.text, htl, List.append_assoc]
  have h0 : (sgn ++ (ip ++ tl)).dropWhile isspace = sgn ++ (ip ++ tl) := by
    rcases hsgn with h | h | h
    · rw [h, List.nil_append, hx]; exact dropWhile_isspace_cons x xs hxs
    · rw [h]; exact dropWhile_isspace_cons _ _ (by decide)
    · rw [h]; exact dropWhile_isspace_cons _ _ (by decide)
  have hsign : (sgn ++ (ip ++ tl)).take
      (if (sgn ++ (ip ++ tl)).head? = some '-' ∨ (sgn ++ (ip ++ tl)).head? = some '+'
        then 1 else 0) = sgn := by
    rcases hsgn with h | h | h
    · rw [h, List.nil_append, hx]
      have : ¬ ((x :: xs).head? = some '-' ∨ (x :: xs).head? = some '+') := by
        simp [hxm, hxp]
      rw [if_neg this]; rfl
    · rw [h]; simp
    · rw [h]; simp
  have hne2 : ¬ (ip = [] ∧ fo.getD [] = []) := by
    intro h
    rcases hne with h1 | h1
    · exact h1 h.1
    · exact h1 h.2
  simp only [lex_decimal, htext, h0, hsign, List.drop_left, hbody.1, hbody.2, htl_frac,
    htl_rest, if_neg hne2]

/-- The `%f` conversion reads a well-formed decimal number in full and leaves
the input behind it. -/
theorem scan_f_text (d : Decimal) (r : List Char) (hd : d.well_formed)
    (hr : ends_number r) : scan_f (d.text ++ r) = some (d.to_float32, r) := by
  simp only [scan_f, lex_decimal_text d r hd hr, Option.map_some']

theorem text_no_nul (d : Decimal) (hd : d.well_formed) : ∀ c ∈ d.text, c ≠ '\x00' := by
  obtain ⟨sgn, ip, fo⟩ := d
  obtain ⟨hsgn, hip, hfp, _⟩ := hd
  simp only at hsgn hip hfp
  intro c hc
  simp only [Decimal.text, List.mem_append] at hc
  rcases hc with (hc | hc) | hc
  · rcases hsgn with h | h | h <;> rw [h] at hc <;> simp at hc <;> (subst hc; decide)
  · exact isdigit_ne (hip c hc) (by decide)
  · cases fo with
    | none => simp [frac_text] at hc
    | some fs =>
      simp only [frac_text, List.mem_cons] at hc
      rcases hc with hc | hc
      · subst hc; decide
      · exact isdigit_ne (hfp c (by simpa using hc)) (by decide)

theorem ends_number_cstr (rest : List Char) (h : ends_number rest) : ends_number (cstr rest) := by
  cases rest with
  | nil => exact h
  | cons x r =>
    intro c hc
    by_cases hx : (x != '\x00') = true
    · simp only [cstr, List.takeWhile_cons, hx, if_true, List.head?_cons,
        Option.some.injEq] at hc
      exact h c (by simp [hc])
    · simp [cstr, List.takeWhile_cons, hx] at hc

theorem ends_number_append (s l : List Char) (hs : s ≠ []) (h : ends_number s) :
    ends_number (s ++ l) := by
  cases s with
  | nil => exact absurd rfl hs
  | cons x s => exact fun c hc => h c (by simpa using hc)

/-! ## Set-Thresholds on a well-formed query -/

theorem sscanf_lits {F : Type} (scan : List Char → Option (F × List Char))
    (ls : List Char) (ds : List Directive) (input : List Char) :
    sscanf scan (ls.map Directive.lit ++ ds) (ls ++ input) = sscanf scan ds input := by
  induction ls with
  | nil => rfl
  | cons c ls ih => simpa [sscanf] using ih

theorem sscanf_conv {F : Type} (scan : List Char → Option (F × List Char))
    (ds : List Directive) (input rest : List Char) (v : F)
    (h : scan input = some (v, rest)) :
    sscanf scan (Directive.conv_f :: ds) input = v :: sscanf scan ds rest := by
  simp only [sscanf, h]

theorem sscanf_space {F : Type} (scan : List Char → Option (F × List Char))
    (ds : List Directive) (c : Char) (input : List Char) (hc : isspace c = false) :
    sscanf scan (Directive.space :: ds) (' ' :: c :: input) = sscanf scan ds (c :: input) := by
  have h1 : isspace ' ' = true := by decide
  simp only [sscanf, List.dropWhile_cons, h1, hc, if_true]
  simp

/-- The format of line 166, directive by directive. -/
theorem parse_limites_format :
    parse_format limites_format =
      "GET".toList.map Directive.lit ++ Directive.space ::
      ("/limites?temp_max=".toList.map Directive.lit ++ Directive.conv_f ::
      ("&temp_min=".toList.map Directive.lit ++ Directive.conv_f ::
      ("&hum_max=".toList.map Directive.lit ++ Directive.conv_f ::
      ("&hum_min=".toList.map Directive.lit ++ Directive.conv_f ::
      ("&press_max=".toList.map Directive.lit ++ Directive.conv_f ::
      ("&press_min=".toList.map Directive.lit ++ [Directive.conv_f])))))) := by
  decide

/-- The `sscanf` call on a request line with six well-formed decimal numbers
converts all six, for every `%f` conversion that reads a plain decimal number
in full. -/
theorem sscanf_six_decimals (scan : List Char → Option (Float32 × List Char))
    (hscan : ∀ (d : Decimal) (r : List Char), d.well_formed → ends_number r →
      scan (d.text ++ r) = some (d.to_float32, r))
    (a b c d e f : Decimal) (rest : List Char)
    (ha : a.well_formed) (hb : b.well_formed) (hc : c.well_formed)
    (hd : d.well_formed) (he : e.well_formed) (hf : f.well_formed)
    (hrest : ends_number rest) :
    sscanf scan (parse_format limites_format)
      ("GET /limites?temp_max=".toList ++ (a.text ++ ("&temp_min=".toList ++ (b.text ++
        ("&hum_max=".toList ++ (c.text ++ ("&hum_min=".toList ++ (d.text ++
        ("&press_max=".toList ++ (e.text ++ ("&press_min=".toList ++ (f.text ++ rest))))))))))))
      = [a.to_float32, b.to_float32, c.to_float32, d.to_float32, e.to_float32,
          f.to_float32] := by
  have hsplit : ∀ l : List Char, "GET /limites?temp_max=".toList ++ l
      = "GET".toList ++ (' ' :: '/' :: ("limites?temp_max=".toList ++ l)) := fun l => rfl
  have hsplit2 : ∀ l : List Char, '/' :: ("limites?temp_max=".toList ++ l)
      = "/limites?temp_max=".toList ++ l := fun l => rfl
  have hsep : ∀ (s l : List Char), s ≠ [] → ends_number s → ends_number (s ++ l) :=
    ends_number_append
  rw [parse_limites_format, hsplit, sscanf_lits, sscanf_space _ _ _ _ (by decide), hsplit2,
    sscanf_lits,
    sscanf_conv _ _ _ _ _ (hscan a _ ha (hsep _ _ (by decide) (by decide))),
    sscanf_lits,
    sscanf_conv _ _ _ _ _ (hscan b _ hb (hsep _ _ (by decide) (by decide))),
    sscanf_lits,
    sscanf_conv _ _ _ _ _ (hscan c _ hc (hsep _ _ (by decide) (by decide))),
    sscanf_lits,
    sscanf_conv _ _ _ _ _ (hscan d _ hd (hsep _ _ (by decide) (by decide))),
    sscanf_lits,
    sscanf_conv _ _ _ _ _ (hscan e _ he (hsep _ _ (by decide) (by decide))),
    sscanf_lits,
    sscanf_conv _ _ _ _ _ (hscan f _ hf hrest)]
  rfl

theorem globals_after_recv_eq {F : Type} (fmt : F → List Char)
    (scan : List Char → Option (F × List Char)) (heap_ok : Bool) (g : Globals F)
    (p : Option (List Char))
    (h : (http_recv fmt scan heap_ok g.registry g.telemetry p).registry = g.registry) :
    globals_after_recv fmt scan heap_ok g p = g := by
  cases g
  simp only [globals_after_recv] at h ⊢
  rw [h]

/-- Claim C11. For every request routed to Get-Dashboard the calls made are the
eight `tcp_write`s of the header and of `HTML_PART1` to `HTML_PART7`, each in
full and in this order, then `tcp_output` and `pbuf_free`; the bytes written
are the header `HTTP/1.1 200 OK\r\nContent-Type: text/html\r\nConnection:
close\r\n\r\n` followed by the seven fragments.  The calls are the same for
every other request routed here, whatever the thresholds and sample buffers
are, and the call leaves the thresholds and the sample buffers as they
were. -/
theorem dashboard_output_fixed {F : Type} (fmt : F → List Char)
    (scan : List Char → Option (F × List Char)) (heap_ok : Bool) (g : Globals F)
    (payload : List Char) (hroute : route (cstr payload) = Route.get_dashboard) :
    written_bytes (http_recv fmt scan heap_ok g.registry g.telemetry (some payload)).actions
      = "HTTP/1.1 200 OK\r\nContent-Type: text/html\r\nConnection: close\r\n\r\n".toList ++
          HTML_PART1 ++ HTML_PART2 ++ HTML_PART3 ++ HTML_PART4 ++ HTML_PART5 ++
          HTML_PART6 ++ HTML_PART7 ∧
    (http_recv fmt scan heap_ok g.registry g.telemetry (some payload)).actions
      = [ Action.tcp_write dashboard_header 0 dashboard_header.length,
          Action.tcp_write HTML_PART1 0 HTML_PART1.length,
          Action.tcp_write HTML_PART2 0 HTML_PART2.length,
          Action.tcp_write HTML_PART3 0 HTML_PART3.length,
          Action.tcp_write HTML_PART4 0 HTML_PART4.length,
          Action.tcp_write HTML_PART5 0 HTML_PART5.length,
          Action.tcp_write HTML_PART6 0 HTML_PART6.length,
          Action.tcp_write HTML_PART7 0 HTML_PART7.length,
          Action.tcp_output, Action.pbuf_free ] ∧
    (∀ (heap_ok2 : Bool) (g2 : Globals F) (payload2 : List Char),
      route (cstr payload2) = Route.get_dashboard →
      (http_recv fmt scan heap_ok2 g2.registry g2.telemetry (some payload2)).actions
        = (http_recv fmt scan heap_ok g.registry g.telemetry (some payload)).actions) ∧
    globals_after_recv fmt scan heap_ok g (some payload) = g ∧
    (http_recv fmt scan heap_ok g.registry g.telemetry (some payload)).ret
      = err_t.ERR_OK := by
  have hrec := http_recv_get_dashboard fmt scan heap_ok g.registry g.telemetry payload hroute
  have hu : ∀ src : List Char, src.length < 65536 → u16 src.length = src.length :=
    fun src h => Nat.mod_eq_of_lt h
  refine ⟨?_, ?_, ?_, ?_, ?_⟩
  · rw [hrec]
    show written_bytes (dashboard_actions ++ [Action.pbuf_free]) = _
    rw [written_bytes_dashboard]
    rfl
  · rw [hrec]
    show dashboard_actions ++ [Action.pbuf_free] = _
    simp only [dashboard_actions, List.cons_append, List.nil_append,
      hu dashboard_header (by decide), hu HTML_PART1 (by decide), hu HTML_PART2 (by decide),
      hu HTML_PART3 (by decide), hu HTML_PART4 (by decide), hu HTML_PART5 (by decide),
      hu HTML_PART6 (by decide), hu HTML_PART7 (by decide)]
  · intro heap_ok2 g2 payload2 hroute2
    rw [hrec, http_recv_get_dashboard fmt scan heap_ok2 g2.registry g2.telemetry payload2
      hroute2]
  · exact globals_after_recv_eq fmt scan heap_ok g (some payload) (by rw [hrec])
  · rw [hrec]

/-- Claim C11 (witness). The request `GET / HTTP/1.1` is routed to
Get-Dashboard and answered with the header and the seven fragments. -/
theorem dashboard_output_fixed_witness :
    route (cstr req_dashboard) = Route.get_dashboard ∧
    written_bytes (http_recv fmt_2f scan_f true default_registry initial_telemetry
        (some req_dashboard)).actions
      = "HTTP/1.1 200 OK\r\nContent-Type: text/html\r\nConnection: close\r\n\r\n".toList ++
          HTML_PART1 ++ HTML_PART2 ++ HTML_PART3 ++ HTML_PART4 ++ HTML_PART5 ++
          HTML_PART6 ++ HTML_PART7 :=
  ⟨by decide,
   (dashboard_output_fixed fmt_2f scan_f true ⟨default_registry, initial_telemetry⟩
      req_dashboard (by decide)).1⟩

/-- Claim C12. On the null segment (end of stream, no data) `http_recv` makes
one call, `tcp_close`: no `tcp_write`, so no byte is written, and no
`malloc`, so no state object exists; the thresholds and the sample buffers
are as before, and the return value is `ERR_OK`. -/
theorem null_segment_closes {F : Type} (fmt : F → List Char)
    (scan : List Char → Option (F × List Char)) (heap_ok : Bool) (g : Globals F) :
    (http_recv fmt scan heap_ok g.registry g.telemetry none).actions = [Action.tcp_close] ∧
    (∀ a ∈ (http_recv fmt scan heap_ok g.registry g.telemetry none).actions,
      a.is_write = false) ∧
    written_bytes (http_recv fmt scan heap_ok g.registry g.telemetry none).actions = [] ∧
    (http_recv fmt scan heap_ok g.registry g.telemetry none).actions.count Action.malloc
      = 0 ∧
    (http_recv fmt scan heap_ok g.registry g.telemetry none).hs = none ∧
    globals_after_recv fmt scan heap_ok g none = g ∧
    (http_recv fmt scan heap_ok g.registry g.telemetry none).ret = err_t.ERR_OK := by
  have hrec : http_recv fmt scan heap_ok g.registry g.telemetry none =
      { ret := err_t.ERR_OK, registry := g.registry, hs := none,
        actions := [Action.tcp_close] } := rfl
  refine ⟨by rw [hrec], ?_, by rw [hrec]; rfl, by rw [hrec]; rfl, by rw [hrec], ?_,
    by rw [hrec]⟩
  · rw [hrec]
    intro a ha
    simp only [List.mem_singleton] at ha
    subst ha
    rfl
  · exact globals_after_recv_eq fmt scan heap_ok g none (by rw [hrec])

/-! ## LED matrix -/

theorem gt_const_spec (x : Float32) (c : Nat) (h : x.gt_const c = true) :
    x.is_nan = false ∧ (c : Int) * 2 ^ 149 < x.signed_units := by
  simpa [Float32.gt_const] using h

theorem le_const_spec (x : Float32) (c : Nat) (h : x.le_const c = true) :
    x.is_nan = false ∧ x.signed_units ≤ (c : Int) * 2 ^ 149 := by
  simpa [Float32.le_const] using h

theorem le_const_false_of_gt (x : Float32) (c d : Nat) (hcd : c ≤ d)
    (h : x.gt_const d = true) : x.le_const c = false := by
  obtain ⟨_, hs⟩ := gt_const_spec x d h
  have hp : (0 : Int) < 2 ^ 149 := by positivity
  have hle : (c : Int) * 2 ^ 149 ≤ (d : Int) * 2 ^ 149 :=
    Int.mul_le_mul_of_nonneg_right (by exact_mod_cast hcd) hp.le
  simp only [Float32.le_const, Bool.and_eq_false_imp, Bool.not_eq_true',
    decide_eq_false_iff_not, not_le]
  intro _
  omega

/-- Claim C13 (what the code does). For every humidity level `x` with
`70 < x <= 79`, `update_matrix` builds the frame whose LEDs 0 to 14 are blue,
`urgb_u32(0, 0, 4)`, and whose LEDs 15 to 24 are off.  This is not the frame
the comment of that branch describes (three first rows red): line 204 assigns
`cor_azul`. -/
theorem update_matrix_high_level_is_blue (x : Float32)
    (h1 : x.gt_const 70 = true) (h2 : x.le_const 79 = true) :
    update_matrix_frame x = List.replicate 15 (urgb_u32 0 0 4) ++ List.replicate 10 0 ∧
    update_matrix_frame x ≠ List.replicate 15 (urgb_u32 4 0 0) ++ List.replicate 10 0 := by
  have e30 := le_const_false_of_gt x 30 70 (by decide) h1
  have e39 := le_const_false_of_gt x 39 70 (by decide) h1
  have e59 := le_const_false_of_gt x 59 70 (by decide) h1
  have e70 := le_const_false_of_gt x 70 70 (by decide) h1
  have hframe : update_matrix_frame x
      = fill_leds (List.replicate NUM_LEDS 0) 14 (urgb_u32 0 0 4) := by
    simp only [update_matrix_frame, e30, e39, e59, e70, h1, h2, Bool.and_false,
      Bool.and_self, Bool.false_eq_true, if_false, if_true]
  rw [hframe]
  constructor <;> decide

/-- Claim C13 (witness). At a humidity of 75 the first three rows are blue. -/
theorem update_matrix_high_level_is_blue_witness :
    (Float32.seventy_five.gt_const 70 = true ∧ Float32.seventy_five.le_const 79 = true) ∧
    update_matrix_frame Float32.seventy_five = three_rows_blue ∧
    update_matrix_frame Float32.seventy_five ≠ three_rows_red :=
  have h := update_matrix_high_level_is_blue Float32.seventy_five (by decide) (by decide)
  ⟨⟨by decide, by decide⟩, h.1, h.2⟩

/-! ## Set-Thresholds: which fields are written -/

/-- When ordinary characters open the format and a value is converted, the
input starts with these characters. -/
theorem sscanf_lits_ne_nil {F : Type} (scan : List Char → Option (F × List Char))
    (ls : List Char) (ds : List Directive) :
    ∀ input : List Char, sscanf scan (ls.map Directive.lit ++ ds) input ≠ [] →
      ∃ rest, input = ls ++ rest ∧ sscanf scan ds rest ≠ [] := by
  induction ls with
  | nil => intro input h; exact ⟨input, rfl, h⟩
  | cons c ls ih =>
    intro input h
    cases input with
    | nil => simp [sscanf] at h
    | cons x r =>
      simp only [List.map_cons, List.cons_append, sscanf] at h
      by_cases hx : x = c
      · rw [if_pos hx] at h
        obtain ⟨rest, hr, hne⟩ := ih r h
        exact ⟨rest, by rw [hx, hr]; rfl, hne⟩
      · rw [if_neg hx] at h
        exact absurd rfl h

theorem sscanf_space_step {F : Type} (scan : List Char → Option (F × List Char))
    (ds : List Directive) (input : List Char) :
    sscanf scan (Directive.space :: ds) input = sscanf scan ds (input.dropWhile isspace) :=
  rfl

/-- A request of which `sscanf` converts a value starts with `GET`, any
amount of white space, `/limites?temp_max=` and something `%f` accepts. -/
theorem sscanf_head {F : Type} (scan : List Char → Option (F × List Char)) (req : List Char)
    (h : sscanf scan (parse_format limites_format) req ≠ []) :
    ∃ ws rest, req = "GET".toList ++ ws ++ "/limites?temp_max=".toList ++ rest ∧
      (∀ c ∈ ws, isspace c = true) ∧ (scan rest).isSome = true := by
  rw [parse_limites_format] at h
  obtain ⟨r1, hr1, h1⟩ := sscanf_lits_ne_nil scan _ _ req h
  rw [sscanf_space_step] at h1
  obtain ⟨r2, hr2, h2⟩ := sscanf_lits_ne_nil scan _ _ _ h1
  refine ⟨r1.takeWhile isspace, r2, ?_, ?_, ?_⟩
  · rw [hr1, List.append_assoc, List.append_assoc, ← hr2,
      List.takeWhile_append_dropWhile]
  · intro c hc
    exact (List.mem_takeWhile_imp hc)
  · cases hs : scan r2 with
    | none => simp [sscanf, hs] at h2
    | some v => rfl

/-- Claim C14 (as amended). For every request routed to Set-Thresholds (the
allocation succeeding) the fields written form a start of the fixed order
`temp_max`, `temp_min`, `hum_max`, `hum_min`, `press_max`, `press_min`: when
`sscanf` converts `k` values, that is when exactly the first `k` parameters
match the positional pattern, `k` is at most 6, the first `k` fields are the
converted values and the other `6 - k` fields keep their values.  A request
changes a field only if it begins with `GET`, any amount of white space (also
none), `/limites?temp_max=` and a number. -/
theorem thresholds_written_in_order {F : Type} (fmt : F → List Char)
    (scan : List Char → Option (F × List Char)) (reg : Registry F)
    (t : Telemetry F) (payload : List Char)
    (hroute : route (cstr payload) = Route.set_thresholds) :
    sscanf_count scan (cstr payload) ≤ 6 ∧
    (http_recv fmt scan true reg t (some payload)).registry.to_list
      = sscanf scan (parse_format limites_format) (cstr payload) ++
          reg.to_list.drop (sscanf_count scan (cstr payload)) ∧
    ((http_recv fmt scan true reg t (some payload)).registry ≠ reg →
      ∃ ws rest, cstr payload = "GET".toList ++ ws ++ "/limites?temp_max=".toList ++ rest ∧
        (∀ c ∈ ws, isspace c = true) ∧ (scan rest).isSome = true) := by
  have hk := sscanf_count_le_six scan (cstr payload)
  rw [http_recv_set_thresholds fmt scan reg t payload hroute]
  refine ⟨hk, store_threshold_args_to_list reg _ hk, ?_⟩
  intro hne
  apply sscanf_head scan (cstr payload)
  intro hnil
  apply hne
  show store_args threshold_args (sscanf scan (parse_format limites_format) (cstr payload)) reg
    = reg
  rw [hnil]
  rfl

/-- Claim C14 (witness). The request whose query lacks `temp_min`: one value
is converted, `temp_max` becomes 40 and the five fields behind it keep their
defaults. -/
theorem thresholds_written_in_order_witness :
    route (cstr req_missing_temp_min) = Route.set_thresholds ∧
    sscanf_count scan_f (cstr req_missing_temp_min) = 1 ∧
    (http_recv fmt_2f scan_f true default_registry initial_telemetry
        (some req_missing_temp_min)).registry.to_list
      = Float32.of_ratio false 40 1 :: default_registry.to_list.drop 1 :=
  have h := thresholds_written_in_order fmt_2f scan_f default_registry initial_telemetry
    req_missing_temp_min (by decide)
  ⟨by decide, by decide, h.2.1.trans (by decide)⟩

/-- Claim C14 (counterexample). The request `GET/limites?temp_max=40.0 ...`,
with `GET /limites` in a header, reaches the Set-Thresholds branch and does
not begin with `GET /limites?`; the blank of the format matches the empty
white space behind `GET`, so `temp_max` changes from 35 to 40. -/
theorem no_blank_request_changes_temp_max :
    route (cstr req_no_blank) = Route.set_thresholds ∧
    ¬ "GET /limites?".toList <+: req_no_blank ∧
    default_registry.temp_max_user = Float32.of_ratio false 35 1 ∧
    (http_recv fmt_2f scan_f true default_registry initial_telemetry
        (some req_no_blank)).registry.temp_max_user = Float32.of_ratio false 40 1 ∧
    (http_recv fmt_2f scan_f true default_registry initial_telemetry
        (some req_no_blank)).registry ≠ default_registry := by
  refine ⟨by decide, ?_, by decide, by decide, by decide⟩
  rw [← List.isPrefixOf_iff_prefix]
  decide

end WeatherStation
